import Mathlib

/-!
# DocumentDB read-replica autoscaler (`aws-cdk/lib/db-scaling/main.go`)

A shallow embedding of the autoscaler's decision engine, topology and metrics
collectors, replica lifecycle actuator and control loop, of the configuration
package (`internal/config/config.go`) and of the load generator
(`cmd/load-generator/main.go`), followed by the properties established about
them.

Modelling conventions

* Go `int` and `int64` values are `Int`; where the source does `int64` arithmetic
  that can wrap (the cooldown duration) the wrap is explicit (`wrapInt64`).
* `float64` values are `Float64`: the finite values as rationals, the two
  infinities and NaN.  Only comparisons are used by the decision engine, and
  the comparisons below are the IEEE ones (every comparison with NaN is false).
  The arithmetic of the metrics collector rounds and is a parameter
  (`Float64Arith`).
* `time.Time` is an instant in nanoseconds (`Int`); `Before` is `<`.
* Errors are their message text; `nil` is `none`.
* `log.Printf` calls have no effect on results and are left out.
* Process-wide configuration variables are the fields of `Config`, passed explicitly.
* Responses of the control plane come in two forms.  `DBClusterMember` and
  `DBInstance` hold the `*string` fields that the source dereferences without a
  nil check by their values, and so describe the responses in which these fields
  are set.  `Sdk.DBClusterMember` and `Sdk.DBInstance` hold every pointer field as
  an `Option`; on them a run that dereferences nil is a panic, the outcome `none`
  of `Sdk.getClusterInfo` and `Sdk.handler`.
* `sort.Slice` is a parameter of `scaleIn`, bound by its contract
  (`SortSliceSpec`).  `Slice` is what `sort.Slice` does since Go 1.19
  (`pdqsort_func` of the Go standard library), `shellInsertionSort` what it did on
  short slices up to Go 1.18.
-/

namespace DbScaling

/-! ## float64 comparisons -/

/-- A `float64` value, up to what comparisons can observe. -/
inductive Float64 where
  | nan : Float64
  | negInf : Float64
  | fin (q : ℚ) : Float64
  | posInf : Float64
deriving DecidableEq

namespace Float64

/-- Go `a <= b` on `float64`. -/
def le : Float64 → Float64 → Bool
  | nan, _ => false
  | _, nan => false
  | negInf, _ => true
  | _, posInf => true
  | fin a, fin b => decide (a ≤ b)
  | fin _, negInf => false
  | posInf, negInf => false
  | posInf, fin _ => false

/-- Go `a >= b` on `float64`. -/
def ge (a b : Float64) : Bool := le b a

/-- Go `a < b` on `float64`. -/
def lt : Float64 → Float64 → Bool
  | nan, _ => false
  | _, nan => false
  | posInf, _ => false
  | _, negInf => false
  | fin a, fin b => decide (a < b)
  | negInf, fin _ => true
  | negInf, posInf => true
  | fin _, posInf => true

/-- The zero value of a `float64` field. -/
def zero : Float64 := fin 0

end Float64

/-! ## Data model -/

/-- The process-wide variables set by `init`. -/
structure Config where
  clusterIdentifier : String
  maxReadReplicas : Int
  minReadReplicas : Int
  instanceClass : String
  cooldownMinutes : Int
  cpuScaleOutThreshold : Float64
  cpuScaleInThreshold : Float64
  connectionsScaleOutThreshold : Float64
  evaluationPeriods : Int

/-- The configuration `init` builds when only `CLUSTER_IDENTIFIER` is set. -/
def defaultConfig (cluster : String) : Config where
  clusterIdentifier := cluster
  maxReadReplicas := 10
  minReadReplicas := 1
  instanceClass := "db.r6g.large"
  cooldownMinutes := 15
  cpuScaleOutThreshold := .fin 70
  cpuScaleInThreshold := .fin 30
  connectionsScaleOutThreshold := .fin 400
  evaluationPeriods := 3

structure ReaderInstance where
  Identifier : String
  CreateTime : Int
  Status : String
deriving DecidableEq

structure ClusterInfo where
  ReaderCount : Int
  WriterCount : Int
  ReaderInstances : List ReaderInstance
deriving DecidableEq

structure Metrics where
  WriterCPU : Float64
  ReaderCPU : Float64
  WriterConnections : Float64
  Timestamp : Int
deriving DecidableEq

structure ScalingDecision where
  Action : String
  Reason : String
  Threshold : Float64
  Current : Float64
deriving DecidableEq

/-! ## Decision engine -/

/-- Source function `makeScalingDecision`.  In the source each rule is a nested
`if threshold { if bound { return ... } else { log } }`; the `else` branch only
logs and falls through to the next rule, so each rule is written here as one
conjunction. -/
def makeScalingDecision (cfg : Config) (clusterInfo : ClusterInfo) (metrics : Metrics) :
    ScalingDecision :=
  if metrics.WriterCPU.ge cfg.cpuScaleOutThreshold ∧
      clusterInfo.ReaderCount < cfg.maxReadReplicas then
    { Action := "scale_out"
      Reason := "Writer CPU utilization high"
      Threshold := cfg.cpuScaleOutThreshold
      Current := metrics.WriterCPU }
  else if metrics.WriterConnections.ge cfg.connectionsScaleOutThreshold ∧
      clusterInfo.ReaderCount < cfg.maxReadReplicas then
    { Action := "scale_out"
      Reason := "Writer connections high"
      Threshold := cfg.connectionsScaleOutThreshold
      Current := metrics.WriterConnections }
  else if (metrics.ReaderCPU.le cfg.cpuScaleInThreshold ∧
      metrics.WriterCPU.le cfg.cpuScaleInThreshold) ∧
      clusterInfo.ReaderCount > cfg.minReadReplicas then
    { Action := "scale_in"
      Reason := "CPU utilization low on both writer and readers"
      Threshold := cfg.cpuScaleInThreshold
      Current := metrics.ReaderCPU }
  else
    { Action := "none"
      Reason := "No scaling conditions met"
      Threshold := Float64.zero
      Current := Float64.zero }

/-! ## The rule chain as the specification words it -/

/-- The three actions of the specification's `ScalingDecision.action`. -/
inductive Action where
  | ScaleOut : Action
  | ScaleIn : Action
  | None : Action
deriving DecidableEq

/-- The string the source uses for each action (`ScalingDecision.Action`). -/
def Action.code : Action → String
  | .ScaleOut => "scale_out"
  | .ScaleIn => "scale_in"
  | .None => "none"

/-- Rule 1 of the specification: scale-out on writer CPU. -/
def cpuScaleOutRule (cfg : Config) (clusterInfo : ClusterInfo) (metrics : Metrics) : Prop :=
  metrics.WriterCPU.ge cfg.cpuScaleOutThreshold = true ∧
    clusterInfo.ReaderCount < cfg.maxReadReplicas

/-- Rule 2 of the specification: scale-out on writer connections. -/
def connectionsScaleOutRule (cfg : Config) (clusterInfo : ClusterInfo) (metrics : Metrics) :
    Prop :=
  metrics.WriterConnections.ge cfg.connectionsScaleOutThreshold = true ∧
    clusterInfo.ReaderCount < cfg.maxReadReplicas

/-- Rule 3 of the specification: scale-in on low CPU on both roles. -/
def scaleInRule (cfg : Config) (clusterInfo : ClusterInfo) (metrics : Metrics) : Prop :=
  metrics.ReaderCPU.le cfg.cpuScaleInThreshold = true ∧
    metrics.WriterCPU.le cfg.cpuScaleInThreshold = true ∧
    clusterInfo.ReaderCount > cfg.minReadReplicas

instance (cfg : Config) (clusterInfo : ClusterInfo) (metrics : Metrics) :
    Decidable (cpuScaleOutRule cfg clusterInfo metrics) := by
  unfold cpuScaleOutRule; infer_instance

instance (cfg : Config) (clusterInfo : ClusterInfo) (metrics : Metrics) :
    Decidable (connectionsScaleOutRule cfg clusterInfo metrics) := by
  unfold connectionsScaleOutRule; infer_instance

instance (cfg : Config) (clusterInfo : ClusterInfo) (metrics : Metrics) :
    Decidable (scaleInRule cfg clusterInfo metrics) := by
  unfold scaleInRule; infer_instance

/-- The ordered first-match rule chain of the specification (section 4.3). -/
def ruleChainAction (cfg : Config) (clusterInfo : ClusterInfo) (metrics : Metrics) : Action :=
  if cpuScaleOutRule cfg clusterInfo metrics then .ScaleOut
  else if connectionsScaleOutRule cfg clusterInfo metrics then .ScaleOut
  else if scaleInRule cfg clusterInfo metrics then .ScaleIn
  else .None

/-! ## Control plane (DocumentDB API) as seen by the autoscaler -/

/-- One entry of `DBCluster.DBClusterMembers` with its identifier set.
`IsClusterWriter` is a `*bool` the source checks for nil; the identifier is a
`*string` the source dereferences without a check, held here by its value.
`Sdk.DBClusterMember` has it as the pointer it is. -/
structure DBClusterMember where
  IsClusterWriter : Option Bool
  DBInstanceIdentifier : String

/-- The fields of `docdb.DBInstance` the collector reads, on an instance whose
identifier and status are set.  `InstanceCreateTime` is checked for nil by the
source; identifier and status are `*string` fields the source dereferences
without a check, held here by their values.  `Sdk.DBInstance` has them as the
pointers they are, and `Sdk.getClusterInfo` the run on an instance that lacks
one. -/
structure DBInstance where
  DBInstanceIdentifier : String
  InstanceCreateTime : Option Int
  DBInstanceStatus : String

structure DBCluster where
  DBClusterMembers : List DBClusterMember

structure CreateDBInstanceInput where
  DBInstanceIdentifier : String
  DBClusterIdentifier : String
  DBInstanceClass : String
  Engine : String
deriving DecidableEq

/-- The responses of the control plane within one tick: describe calls return
an error text or the listed items, lifecycle calls return an error text or nil. -/
structure DocDBClient where
  DescribeDBClusters : String → Except String (List DBCluster)
  DescribeDBInstances : String → Except String (List DBInstance)
  CreateDBInstance : CreateDBInstanceInput → Option String
  DeleteDBInstance : String → Option String

/-- A lifecycle request sent to the control plane. -/
inductive ApiCall where
  | CreateDBInstance (input : CreateDBInstanceInput) : ApiCall
  | DeleteDBInstance (DBInstanceIdentifier : String) : ApiCall
deriving DecidableEq

/-- What an actuator function does: the lifecycle requests it sent, in order,
and the `error` it returns. -/
structure ActionResult where
  calls : List ApiCall
  err : Option String
deriving DecidableEq

/-! ## Topology collector -/

/-- Body of the `for _, member := range cluster.DBClusterMembers` loop of
`getClusterInfo`. -/
def getClusterInfo.step (client : DocDBClient) (info : ClusterInfo)
    (member : DBClusterMember) : ClusterInfo :=
  if member.IsClusterWriter = some true then
    { info with WriterCount := info.WriterCount + 1 }
  else
    match client.DescribeDBInstances member.DBInstanceIdentifier with
    | .error _ => info
    | .ok [] => info
    | .ok (inst :: _) =>
      match inst.InstanceCreateTime with
      | none => info
      | some createTime =>
        { info with
          ReaderInstances := info.ReaderInstances ++
            [{ Identifier := inst.DBInstanceIdentifier
               CreateTime := createTime
               Status := inst.DBInstanceStatus }]
          ReaderCount := info.ReaderCount + 1 }

/-- Source function `getClusterInfo`. -/
def getClusterInfo (client : DocDBClient) (cfg : Config) : Except String ClusterInfo :=
  match client.DescribeDBClusters cfg.clusterIdentifier with
  | .error err => .error ("failed to describe cluster: " ++ err)
  | .ok [] => .error ("cluster " ++ cfg.clusterIdentifier ++ " not found")
  | .ok (cluster :: _) =>
    .ok (cluster.DBClusterMembers.foldl (getClusterInfo.step client)
      { ReaderCount := 0, WriterCount := 0, ReaderInstances := [] })

/-- The reader a cluster member contributes to the topology, if any: a member
that is not the writer and whose describe-instance lookup succeeds with at least
one instance that has a creation time. -/
def describedReader (client : DocDBClient) (member : DBClusterMember) :
    Option ReaderInstance :=
  if member.IsClusterWriter = some true then none
  else
    match client.DescribeDBInstances member.DBInstanceIdentifier with
    | .ok (inst :: _) =>
      inst.InstanceCreateTime.map fun createTime =>
        { Identifier := inst.DBInstanceIdentifier
          CreateTime := createTime
          Status := inst.DBInstanceStatus }
    | _ => none

/-- The members of a cluster that are not the writer. -/
def nonWriterMembers (cluster : DBCluster) : List DBClusterMember :=
  cluster.DBClusterMembers.filter fun member => decide (member.IsClusterWriter ≠ some true)

/-! ## `sort.Slice` -/

/-- Go `insertionSort_func(data, 0, n)` with `less(i, j) = CreateTime[i].Before(CreateTime[j])`,
inner loop: the new element `x` moves left past every neighbour it is less than.
The sorted prefix is held reversed (its last element first). -/
def insertionSort.bubble (x : ReaderInstance) : List ReaderInstance → List ReaderInstance
  | [] => [x]
  | y :: ys => if x.CreateTime < y.CreateTime then y :: bubble x ys else x :: y :: ys

/-- Go `insertionSort_func(data, 0, n)`: elements are taken left to right and
bubbled into the sorted prefix.  This is all `sort.Slice` does on slices of at
most 12 elements since Go 1.19. -/
def insertionSort (data : List ReaderInstance) : List ReaderInstance :=
  (data.foldl (fun prefixRev x => insertionSort.bubble x prefixRev) []).reverse

/-- Compare-exchange of `lo[k]` with `hi[k]` for every `k` both have: `hi[k]` and
`lo[k]` are swapped when `hi[k]` is less than `lo[k]`. -/
def shellPass.exchange :
    List ReaderInstance → List ReaderInstance → List ReaderInstance × List ReaderInstance
  | x :: xs, y :: ys =>
    if y.CreateTime < x.CreateTime then
      (y :: (exchange xs ys).1, x :: (exchange xs ys).2)
    else
      (x :: (exchange xs ys).1, y :: (exchange xs ys).2)
  | xs, [] => (xs, [])
  | [], ys => ([], ys)

/-- The gap-6 pass `for i := 6; i < n; i++ { if less(i, i-6) { swap(i, i-6) } }`
that `sort.Slice` ran before insertion sort up to Go 1.18.  On a slice of at most
12 elements the pairs `(i-6, i)` are disjoint, so the pass exchanges the first
six elements pairwise with the rest. -/
def shellPass (data : List ReaderInstance) : List ReaderInstance :=
  (shellPass.exchange (data.take 6) (data.drop 6)).1 ++
    (shellPass.exchange (data.take 6) (data.drop 6)).2

/-- What `sort.Slice` did on slices of at most 12 elements up to Go 1.18
(`quickSort_func` with `b-a <= 12`): the gap-6 pass, then insertion sort. -/
def shellInsertionSort (data : List ReaderInstance) : List ReaderInstance :=
  insertionSort (shellPass data)

/-- The documented contract of `sort.Slice(data, less)` with
`less(i, j) = data[i].CreateTime.Before(data[j].CreateTime)`: the result is a
rearrangement of `data` in which no later element is less than an earlier one.
The order of elements with equal creation times is not specified. -/
def SortSliceSpec (sortSlice : List ReaderInstance → List ReaderInstance) : Prop :=
  ∀ data, (sortSlice data).Perm data ∧
    (sortSlice data).Pairwise (fun a b => ¬ b.CreateTime < a.CreateTime)

/-! ## Replica lifecycle actuator -/

/-- Go `int64(x)`: two's-complement wrap to 64 bits. -/
def wrapInt64 (x : Int) : Int := (x + 2 ^ 63) % 2 ^ 64 - 2 ^ 63

/-- Go `time.Minute`, in nanoseconds. -/
def minute : Int := 60000000000

/-- The source's `time.Now().Add(-time.Duration(cooldownMinutes) * time.Minute)`,
with `now` the value of `time.Now()`.  The duration is `int64` arithmetic. -/
def cooldownThreshold (cfg : Config) (now : Int) : Int :=
  now + wrapInt64 (wrapInt64 (-(wrapInt64 cfg.cooldownMinutes)) * minute)

/-- The condition under which `scaleIn` selects a reader:
`r.CreateTime.Before(cooldownThreshold) && r.Status == "available"`. -/
def eligible (cfg : Config) (now : Int) (r : ReaderInstance) : Prop :=
  r.CreateTime < cooldownThreshold cfg now ∧ r.Status = "available"

instance (cfg : Config) (now : Int) (r : ReaderInstance) : Decidable (eligible cfg now r) := by
  unfold eligible; infer_instance

/-- Source function `scaleOut`; `now` is the value of `time.Now()`. -/
def scaleOut (client : DocDBClient) (cfg : Config) (now : Int) : ActionResult :=
  let timestamp := now / 1000000000
  let newInstanceId := cfg.clusterIdentifier ++ "-reader-" ++ toString timestamp
  let createInput : CreateDBInstanceInput :=
    { DBInstanceIdentifier := newInstanceId
      DBClusterIdentifier := cfg.clusterIdentifier
      DBInstanceClass := cfg.instanceClass
      Engine := "docdb" }
  match client.CreateDBInstance createInput with
  | some err =>
    { calls := [.CreateDBInstance createInput]
      err := some ("failed to create read replica: " ++ err) }
  | none => { calls := [.CreateDBInstance createInput], err := none }

/-- Source function `scaleIn`; `sortSlice` is what `sort.Slice` does with the
source's `less`, `now` is the value of `time.Now()`. -/
def scaleIn (client : DocDBClient) (cfg : Config)
    (sortSlice : List ReaderInstance → List ReaderInstance) (now : Int)
    (clusterInfo : ClusterInfo) : ActionResult :=
  if clusterInfo.ReaderInstances.any (fun inst => decide (inst.Status = "deleting")) then
    { calls := [], err := none }
  else if (clusterInfo.ReaderInstances.length : Int) ≤ cfg.minReadReplicas then
    { calls := [], err := none }
  else
    match (sortSlice clusterInfo.ReaderInstances).find?
        (fun r => decide (eligible cfg now r)) with
    | none => { calls := [], err := none }
    | some instanceToDelete =>
      match client.DeleteDBInstance instanceToDelete.Identifier with
      | some err =>
        { calls := [.DeleteDBInstance instanceToDelete.Identifier]
          err := some ("failed to delete instance " ++ instanceToDelete.Identifier ++
            ": " ++ err) }
      | none => { calls := [.DeleteDBInstance instanceToDelete.Identifier], err := none }

/-- Source function `executeScalingAction`. -/
def executeScalingAction (client : DocDBClient) (cfg : Config)
    (sortSlice : List ReaderInstance → List ReaderInstance) (now : Int)
    (decision : ScalingDecision) (clusterInfo : ClusterInfo) : ActionResult :=
  if decision.Action = "scale_out" then scaleOut client cfg now
  else if decision.Action = "scale_in" then scaleIn client cfg sortSlice now clusterInfo
  else { calls := [], err := none }

/-- One step of the selection the specification describes for scale-in: `best` is
the choice among the readers seen so far; an eligible reader replaces it only
when it was created strictly earlier, so that among readers sharing the earliest
creation time the first in input order is kept. -/
def oldestEligibleFirst.pick (cfg : Config) (now : Int) (best : Option ReaderInstance)
    (r : ReaderInstance) : Option ReaderInstance :=
  if eligible cfg now r then
    match best with
    | none => some r
    | some b => if r.CreateTime < b.CreateTime then some r else some b
  else best

/-- The selection the specification describes for scale-in: among the eligible
readers the one with the earliest creation time, the first of them in input
order when several share it. -/
def oldestEligibleFirst (cfg : Config) (now : Int) (readers : List ReaderInstance) :
    Option ReaderInstance :=
  readers.foldl (oldestEligibleFirst.pick cfg now) none

/-! ## Metrics collector -/

/-- The `float64` operations `getMetricValue` uses: `+`, `/` and the conversion
`float64(n)` of an `int`.  They round, so they are left as a parameter: what is
established about the mean holds whatever the rounding is. -/
structure Float64Arith where
  add : Float64 → Float64 → Float64
  div : Float64 → Float64 → Float64
  ofInt : Int → Float64

structure Dimension where
  Name : String
  Value : String
deriving DecidableEq

/-- The request `getMetricValue` builds; times are instants in nanoseconds. -/
structure GetMetricStatisticsInput where
  Namespace : String
  MetricName : String
  Dimensions : List Dimension
  StartTime : Int
  EndTime : Int
  Period : Int
  Statistics : List String
deriving DecidableEq

/-- The field of `cloudwatch.Datapoint` the collector reads: `Average` is a
`*float64` the source checks for nil. -/
structure Datapoint where
  Average : Option Float64
deriving DecidableEq

/-- The responses of the monitoring service within one tick. -/
structure CloudWatchClient where
  GetMetricStatistics : GetMetricStatisticsInput → Except String (List Datapoint)

/-- Body of the `for _, datapoint := range result.Datapoints` loop of
`getMetricValue`. -/
def getMetricValue.step (arith : Float64Arith) (sum : Float64) (datapoint : Datapoint) :
    Float64 :=
  match datapoint.Average with
  | some average => arith.add sum average
  | none => sum

/-- The `cloudwatch.GetMetricStatisticsInput` that `getMetricValue` builds. -/
def getMetricValue.input (cfg : Config) (metricName role : String) (startTime endTime : Int) :
    GetMetricStatisticsInput :=
  { Namespace := "AWS/DocDB"
    MetricName := metricName
    Dimensions :=
      [{ Name := "DBClusterIdentifier", Value := cfg.clusterIdentifier },
       { Name := "Role", Value := role }]
    StartTime := startTime
    EndTime := endTime
    Period := 60
    Statistics := ["Average"] }

/-- Source function `getMetricValue`. -/
def getMetricValue (cloudwatch : CloudWatchClient) (arith : Float64Arith) (cfg : Config)
    (metricName role : String) (startTime endTime : Int) : Except String Float64 :=
  match cloudwatch.GetMetricStatistics
      (getMetricValue.input cfg metricName role startTime endTime) with
  | .error err => .error err
  | .ok datapoints =>
    if datapoints.length = 0 then .ok Float64.zero
    else
      .ok (arith.div (datapoints.foldl (getMetricValue.step arith) Float64.zero)
        (arith.ofInt datapoints.length))

/-- The arithmetic mean of a non-empty list of numbers: their sum divided by
their number. -/
def rationalMean (values : List ℚ) : ℚ :=
  values.sum / (values.length : ℚ)

/-- The source's `endTime.Add(-time.Duration(evaluationPeriods) * time.Minute)`. -/
def evaluationStart (cfg : Config) (endTime : Int) : Int :=
  endTime + wrapInt64 (wrapInt64 (-(wrapInt64 cfg.evaluationPeriods)) * minute)

/-- Source function `getCurrentMetrics`; `now` is the value of `time.Now()`. -/
def getCurrentMetrics (cloudwatch : CloudWatchClient) (arith : Float64Arith) (cfg : Config)
    (now : Int) : Except String Metrics :=
  let endTime := now
  let startTime := evaluationStart cfg endTime
  match getMetricValue cloudwatch arith cfg "CPUUtilization" "WRITER" startTime endTime with
  | .error err => .error ("failed to get writer CPU metric: " ++ err)
  | .ok writerCPU =>
    let readerCPU :=
      match getMetricValue cloudwatch arith cfg "CPUUtilization" "READER" startTime endTime with
      | .error _ => Float64.zero
      | .ok value => value
    match getMetricValue cloudwatch arith cfg "DatabaseConnections" "WRITER"
        startTime endTime with
    | .error err => .error ("failed to get writer connections metric: " ++ err)
    | .ok writerConnections =>
      .ok { WriterCPU := writerCPU
            ReaderCPU := readerCPU
            WriterConnections := writerConnections
            Timestamp := endTime }

/-! ## Control loop -/

structure SchedulerEvent where
  Source : String
  Environment : String
  ClusterIdentifier : String

structure Response where
  StatusCode : Int
  Body : String
deriving DecidableEq

/-- What one invocation of `handler` does: the `Response` and the `error` it
returns, and the lifecycle requests it sent to the control plane, in order. -/
structure HandlerResult where
  response : Response
  err : Option String
  calls : List ApiCall
deriving DecidableEq

/-- Source function `handler`.  `metricsNow` is the value of `time.Now()` in
`getCurrentMetrics`, `actionNow` its value in `scaleOut` or `scaleIn`. -/
def handler (client : DocDBClient) (cloudwatch : CloudWatchClient) (arith : Float64Arith)
    (cfg : Config) (sortSlice : List ReaderInstance → List ReaderInstance)
    (metricsNow actionNow : Int) (_event : SchedulerEvent) : HandlerResult :=
  match getClusterInfo client cfg with
  | .error err =>
    { response := { StatusCode := 500, Body := "Error: " ++ err }, err := none, calls := [] }
  | .ok clusterInfo =>
    match getCurrentMetrics cloudwatch arith cfg metricsNow with
    | .error err =>
      { response := { StatusCode := 500, Body := "Error: " ++ err }, err := none, calls := [] }
    | .ok metrics =>
      let decision := makeScalingDecision cfg clusterInfo metrics
      if decision.Action ≠ "none" then
        let outcome := executeScalingAction client cfg sortSlice actionNow decision clusterInfo
        match outcome.err with
        | some err =>
          { response := { StatusCode := 500, Body := "Error: " ++ err }
            err := none
            calls := outcome.calls }
        | none =>
          { response :=
              { StatusCode := 200, Body := "Scaling decision: " ++ decision.Action }
            err := none
            calls := outcome.calls }
      else
        { response := { StatusCode := 200, Body := "Scaling decision: " ++ decision.Action }
          err := none
          calls := [] }

/-! ## Decision engine with its surroundings made explicit -/

/-- Everything `makeScalingDecision` can touch: the process-wide variables, the
values behind its two pointer arguments, and the log. -/
structure EngineState where
  cfg : Config
  clusterInfo : ClusterInfo
  metrics : Metrics
  log : List String

/-- Source function `makeScalingDecision` from
`if metrics.ReaderCPU <= cpuScaleInThreshold && ...` to its end, on the explicit
state: the returned decision and the state it leaves. -/
def makeScalingDecision.fromScaleIn (s : EngineState) : ScalingDecision × EngineState :=
  if s.metrics.ReaderCPU.le s.cfg.cpuScaleInThreshold ∧
      s.metrics.WriterCPU.le s.cfg.cpuScaleInThreshold then
    if s.clusterInfo.ReaderCount > s.cfg.minReadReplicas then
      ({ Action := "scale_in"
         Reason := "CPU utilization low on both writer and readers"
         Threshold := s.cfg.cpuScaleInThreshold
         Current := s.metrics.ReaderCPU }, s)
    else
      ({ Action := "none"
         Reason := "No scaling conditions met"
         Threshold := Float64.zero
         Current := Float64.zero },
        { s with log := s.log ++
          ["Scale in conditions met but already at min replicas (" ++
            toString s.cfg.minReadReplicas ++ ")"] })
  else
    ({ Action := "none"
       Reason := "No scaling conditions met"
       Threshold := Float64.zero
       Current := Float64.zero }, s)

/-- Source function `makeScalingDecision` from
`if metrics.WriterConnections >= connectionsScaleOutThreshold` to its end. -/
def makeScalingDecision.fromConnections (s : EngineState) : ScalingDecision × EngineState :=
  if s.metrics.WriterConnections.ge s.cfg.connectionsScaleOutThreshold then
    if s.clusterInfo.ReaderCount < s.cfg.maxReadReplicas then
      ({ Action := "scale_out"
         Reason := "Writer connections high"
         Threshold := s.cfg.connectionsScaleOutThreshold
         Current := s.metrics.WriterConnections }, s)
    else
      makeScalingDecision.fromScaleIn { s with log := s.log ++
        ["Scale out needed but already at max replicas (" ++
          toString s.cfg.maxReadReplicas ++ ")"] }
  else makeScalingDecision.fromScaleIn s

/-- Source function `makeScalingDecision`, statement by statement with its
`log.Printf` calls, on the explicit state. -/
def makeScalingDecision.run (s : EngineState) : ScalingDecision × EngineState :=
  if s.metrics.WriterCPU.ge s.cfg.cpuScaleOutThreshold then
    if s.clusterInfo.ReaderCount < s.cfg.maxReadReplicas then
      ({ Action := "scale_out"
         Reason := "Writer CPU utilization high"
         Threshold := s.cfg.cpuScaleOutThreshold
         Current := s.metrics.WriterCPU }, s)
    else
      makeScalingDecision.fromConnections { s with log := s.log ++
        ["Scale out needed but already at max replicas (" ++
          toString s.cfg.maxReadReplicas ++ ")"] }
  else makeScalingDecision.fromConnections s

/-! ## Concrete inputs used in the examples below -/

/-- One hundred minutes after the epoch, as a value of `time.Now()`. -/
def exampleNow : Int := 100 * minute

/-- A control plane on which every lifecycle call succeeds. -/
def okClient : DocDBClient where
  DescribeDBClusters := fun _ => .ok []
  DescribeDBInstances := fun _ => .ok []
  CreateDBInstance := fun _ => none
  DeleteDBInstance := fun _ => none

/-- A control plane that rejects every create-instance call. -/
def failingCreateClient : DocDBClient where
  DescribeDBClusters := fun _ => .ok []
  DescribeDBInstances := fun _ => .ok []
  CreateDBInstance := fun _ => some "Throttling: Rate exceeded"
  DeleteDBInstance := fun _ => none

/-- Two readers, the first of which is being deleted. -/
def deletingTopology : ClusterInfo where
  ReaderCount := 2
  WriterCount := 1
  ReaderInstances :=
    [{ Identifier := "r1", CreateTime := 10 * minute, Status := "deleting" },
     { Identifier := "r2", CreateTime := 20 * minute, Status := "available" }]

/-- Seven available readers: `r0` created at minute 5, `r1` to `r6` all created
at minute 3. -/
def sevenReaders : List ReaderInstance :=
  [{ Identifier := "r0", CreateTime := 5 * minute, Status := "available" },
   { Identifier := "r1", CreateTime := 3 * minute, Status := "available" },
   { Identifier := "r2", CreateTime := 3 * minute, Status := "available" },
   { Identifier := "r3", CreateTime := 3 * minute, Status := "available" },
   { Identifier := "r4", CreateTime := 3 * minute, Status := "available" },
   { Identifier := "r5", CreateTime := 3 * minute, Status := "available" },
   { Identifier := "r6", CreateTime := 3 * minute, Status := "available" }]

/-- Three eligible readers: `r0` created at minute 5, `r1` and `r2` both at
minute 3. -/
def tiedReaders : List ReaderInstance :=
  [{ Identifier := "r0", CreateTime := 5 * minute, Status := "available" },
   { Identifier := "r1", CreateTime := 3 * minute, Status := "available" },
   { Identifier := "r2", CreateTime := 3 * minute, Status := "available" }]

/-- Two readers at minute 100 with a 15-minute cooldown: the only available one
was created 5 minutes ago, the other is still being created. -/
def cooldownTopology : ClusterInfo where
  ReaderCount := 2
  WriterCount := 1
  ReaderInstances :=
    [{ Identifier := "r1", CreateTime := 95 * minute, Status := "available" },
     { Identifier := "r2", CreateTime := 40 * minute, Status := "creating" }]

/-- A cluster of one writer and two available readers, `r-old` created at minute
80 (20 minutes before `exampleNow`) and `r-new` at minute 95; every lifecycle
call succeeds. -/
def twoReaderClient : DocDBClient where
  DescribeDBClusters := fun _ =>
    .ok [{ DBClusterMembers :=
      [{ IsClusterWriter := some true, DBInstanceIdentifier := "writer" },
       { IsClusterWriter := some false, DBInstanceIdentifier := "r-new" },
       { IsClusterWriter := some false, DBInstanceIdentifier := "r-old" }] }]
  DescribeDBInstances := fun id =>
    if id = "r-new" then
      .ok [{ DBInstanceIdentifier := "r-new", InstanceCreateTime := some (95 * minute)
             DBInstanceStatus := "available" }]
    else if id = "r-old" then
      .ok [{ DBInstanceIdentifier := "r-old", InstanceCreateTime := some (80 * minute)
             DBInstanceStatus := "available" }]
    else .error "DBInstanceNotFound"
  CreateDBInstance := fun _ => none
  DeleteDBInstance := fun _ => none

/-- The topology the collector returns for `twoReaderClient`. -/
def twoReaderTopology : ClusterInfo where
  ReaderCount := 2
  WriterCount := 1
  ReaderInstances :=
    [{ Identifier := "r-new", CreateTime := 95 * minute, Status := "available" },
     { Identifier := "r-old", CreateTime := 80 * minute, Status := "available" }]

/-- Arithmetic without rounding on finite values (division by a non-zero
divisor); IEEE arithmetic gives the same results whenever they are
representable, as they are in the examples below.  Other operands give NaN here
and are not used. -/
def exampleArith : Float64Arith where
  add := fun a b =>
    match a, b with
    | .fin x, .fin y => .fin (x + y)
    | _, _ => .nan
  div := fun a b =>
    match a, b with
    | .fin x, .fin y => if y = 0 then .nan else .fin (x / y)
    | _, _ => .nan
  ofInt := fun n => .fin n

/-- A monitoring service that returns three datapoints per metric: CPU 50 for
the writer, CPU 40 for the readers, 100 writer connections. -/
def steadyCloudWatch : CloudWatchClient where
  GetMetricStatistics := fun input =>
    if input.MetricName = "DatabaseConnections" then
      .ok [⟨some (.fin 100)⟩, ⟨some (.fin 100)⟩, ⟨some (.fin 100)⟩]
    else if input.Dimensions = [⟨"DBClusterIdentifier", "docdb"⟩, ⟨"Role", "WRITER"⟩] then
      .ok [⟨some (.fin 40)⟩, ⟨some (.fin 50)⟩, ⟨some (.fin 60)⟩]
    else .ok [⟨some (.fin 40)⟩, ⟨some (.fin 40)⟩, ⟨some (.fin 40)⟩]

/-- A monitoring service on which the reader-role query fails; writer CPU is 20
and there are 100 writer connections. -/
def noReaderCloudWatch : CloudWatchClient where
  GetMetricStatistics := fun input =>
    if input.MetricName = "DatabaseConnections" then .ok [⟨some (.fin 100)⟩]
    else if input.Dimensions = [⟨"DBClusterIdentifier", "docdb"⟩, ⟨"Role", "WRITER"⟩] then
      .ok [⟨some (.fin 20)⟩]
    else .error "InternalServiceFault"

/-- A monitoring service that returns two datapoints, the second without an
`Average`. -/
def gapCloudWatch : CloudWatchClient where
  GetMetricStatistics := fun _ => .ok [⟨some (.fin 30)⟩, ⟨none⟩]

/-- A cluster of one writer and one reader whose describe-instance lookup fails. -/
def lostReaderClient : DocDBClient where
  DescribeDBClusters := fun _ =>
    .ok [{ DBClusterMembers :=
      [{ IsClusterWriter := some true, DBInstanceIdentifier := "writer" },
       { IsClusterWriter := some false, DBInstanceIdentifier := "r1" }] }]
  DescribeDBInstances := fun _ => .error "Throttling: Rate exceeded"
  CreateDBInstance := fun _ => none
  DeleteDBInstance := fun _ => none

/-- An event as the scheduler sends it. -/
def exampleEvent : SchedulerEvent where
  Source := "aws.events"
  Environment := "dev"
  ClusterIdentifier := "docdb"

end DbScaling

/-! # Go standard library functions the configuration code calls -/

namespace Os

/-- Go `os.Getenv`: the value of the variable, or the empty string when it is
not set.  The environment maps a variable name to its value when set. -/
def Getenv (environ : String → Option String) (key : String) : String :=
  (environ key).getD ""

/-- Go `os.Setenv` on an environment. -/
def Setenv (environ : String → Option String) (key value : String) : String → Option String :=
  fun k => if k = key then some value else environ k

/-- Go `os.Clearenv`: the environment in which no variable is set. -/
def Clearenv : String → Option String := fun _ => none

end Os

namespace Strconv

/-- The value of a run of decimal digits read left to right from `acc`; `none`
when a character is not one of `0` to `9`. -/
def parseDigits (acc : Nat) : List Char → Option Nat
  | [] => some acc
  | c :: cs =>
    if '0' ≤ c ∧ c ≤ '9' then parseDigits (acc * 10 + (c.toNat - '0'.toNat)) cs else none

/-- Go `strconv.Atoi` on a 64-bit platform, after its documentation: an optional
sign `+` or `-` followed by one or more decimal digits, the value within the
range of `int`.  The error is the `Err` text of the `*NumError` returned. -/
def Atoi (s : String) : Except String Int :=
  let negative := s.data.head? = some '-'
  let digits :=
    match s.data with
    | '-' :: rest => rest
    | '+' :: rest => rest
    | cs => cs
  if digits = [] then .error "invalid syntax"
  else
    match parseDigits 0 digits with
    | none => .error "invalid syntax"
    | some n =>
      let value : Int := if negative then -(n : Int) else (n : Int)
      if -(2 : Int) ^ 63 ≤ value ∧ value < (2 : Int) ^ 63 then .ok value
      else .error "value out of range"

end Strconv

/-! # Configuration package (`internal/config/config.go`) -/

namespace EnvConfig

structure LoadGeneratorConfig where
  MongoConnectionString : String
deriving DecidableEq

structure MetricsCheckerConfig where
  ClusterIdentifier : String
  Environment : String
deriving DecidableEq

/-- Source function `LoadGeneratorConfigFromEnv`. -/
def LoadGeneratorConfigFromEnv (environ : String → Option String) :
    Except String LoadGeneratorConfig :=
  let connectionString := Os.Getenv environ "MONGODB_CONNECTION_STRING"
  if connectionString = "" then
    .error "MONGODB_CONNECTION_STRING environment variable is required"
  else .ok { MongoConnectionString := connectionString }

/-- Source function `MetricsCheckerConfigFromEnv`. -/
def MetricsCheckerConfigFromEnv (environ : String → Option String) :
    Except String MetricsCheckerConfig :=
  let clusterID := Os.Getenv environ "CLUSTER_IDENTIFIER"
  if clusterID = "" then .error "CLUSTER_IDENTIFIER environment variable is required"
  else
    let environment := Os.Getenv environ "ENVIRONMENT"
    if environment = "" then .error "ENVIRONMENT environment variable is required"
    else .ok { ClusterIdentifier := clusterID, Environment := environment }

/-- Source function `GetEnvInt`. -/
def GetEnvInt (environ : String → Option String) (key : String) (defaultValue : Int) : Int :=
  let value := Os.Getenv environ key
  if value ≠ "" then
    match Strconv.Atoi value with
    | .ok intValue => intValue
    | .error _ => defaultValue
  else defaultValue

/-- Source function `GetEnvString`. -/
def GetEnvString (environ : String → Option String) (key defaultValue : String) : String :=
  let value := Os.Getenv environ key
  if value ≠ "" then value else defaultValue

end EnvConfig

/-! # Load generator (`cmd/load-generator/main.go`) -/

namespace LoadGenerator

structure LoadGeneratorRequest where
  DurationMinutes : Int
  NumThreads : Int
  OperationType : String
deriving DecidableEq

structure LoadGeneratorResponse where
  StatusCode : Int
  Body : String
deriving DecidableEq

structure ThreadResult where
  ThreadID : Int
  OperationsCompleted : Int
  DurationSeconds : DbScaling.Float64
  Error : String
deriving DecidableEq

structure LoadGeneratorResult where
  Message : String
  TotalOperations : Int
  ThreadResults : List ThreadResult
  TestParameters : LoadGeneratorRequest
deriving DecidableEq

/-- What one pass through the loop body of `generateLoad` meets: the error
`performWrite` returns if it is called, and the error `performRead` returns if it
is called (`none` for nil). -/
structure Iteration where
  writeErr : Option String
  readErr : Option String

/-- The second half of the loop body of `generateLoad`: the read, when the
operation type asks for one. -/
def generateLoad.readStep (operationType : String) (operationsCount : Int)
    (iteration : Iteration) : Int :=
  if operationType = "read" ∨ operationType = "mixed" then
    match iteration.readErr with
    | some _ => operationsCount
    | none => operationsCount + 1
  else operationsCount

/-- The loop body of `generateLoad`: a failed operation is logged and the pass
is abandoned (`continue`), a successful one is counted. -/
def generateLoad.step (operationType : String) (operationsCount : Int)
    (iteration : Iteration) : Int :=
  if operationType = "write" ∨ operationType = "mixed" then
    match iteration.writeErr with
    | some _ => operationsCount
    | none => generateLoad.readStep operationType (operationsCount + 1) iteration
  else generateLoad.readStep operationType operationsCount iteration

/-- Source method `LoadWorker.generateLoad`.  The clock decides how many passes
the loop makes before the duration expires; `iterations` lists what each pass
met, `elapsed` is `time.Since(startTime).Seconds()`.  The `Error` field is not
set by the source and keeps its zero value. -/
def generateLoad (threadID : Int) (operationType : String) (iterations : List Iteration)
    (elapsed : DbScaling.Float64) : ThreadResult :=
  { ThreadID := threadID
    OperationsCompleted := iterations.foldl (generateLoad.step operationType) 0
    DurationSeconds := elapsed
    Error := "" }

/-- Source function `docdb.NewClient` (`internal/docdb/client.go`): it records the
connection string and never fails. -/
def NewClient (connectionString : String) : Except String String :=
  .ok connectionString

/-- Everything outside the handler during one invocation: the process
environment, the outcome of `client.Connect`, what each worker's passes met and
how long each worker ran, and what `json.Marshal` returns. -/
structure World where
  environ : String → Option String
  connectErr : Option String
  iterations : Nat → List Iteration
  elapsed : Nat → DbScaling.Float64
  marshal : LoadGeneratorResult → Except String String

/-- The request after the `// Set defaults` block of `handler`. -/
def handler.withDefaults (request : LoadGeneratorRequest) : LoadGeneratorRequest :=
  { DurationMinutes := if request.DurationMinutes ≤ 0 then 5 else request.DurationMinutes
    NumThreads := if request.NumThreads ≤ 0 then 5 else request.NumThreads
    OperationType := if request.OperationType = "" then "read" else request.OperationType }

/-- The `results` slice of `handler` after `wg.Wait()`: worker `i` runs on its own
and writes only `results[i]`, so the slice is the list of the workers' results. -/
def handler.results (world : World) (request : LoadGeneratorRequest) : List ThreadResult :=
  (List.range request.NumThreads.toNat).map fun threadID =>
    generateLoad (threadID : Nat) request.OperationType (world.iterations threadID)
      (world.elapsed threadID)

/-- Source function `handler` of the load generator; the returned `error` is nil
on every path and is left out. -/
def handler (world : World) (request : LoadGeneratorRequest) : LoadGeneratorResponse :=
  match EnvConfig.LoadGeneratorConfigFromEnv world.environ with
  | .error err =>
    { StatusCode := 500
      Body := "\x7b\"error\": \"" ++ err ++ "\", \"message\": \"Configuration error\"\x7d" }
  | .ok dbConfig =>
    let request := handler.withDefaults request
    match NewClient dbConfig.MongoConnectionString with
    | .error err =>
      { StatusCode := 500
        Body := "\x7b\"error\": \"" ++ err ++
          "\", \"message\": \"Failed to create DocumentDB client\"\x7d" }
    | .ok _ =>
      match world.connectErr with
      | some err =>
        { StatusCode := 500
          Body := "\x7b\"error\": \"" ++ err ++
            "\", \"message\": \"Failed to connect to DocumentDB\"\x7d" }
      | none =>
        let results := handler.results world request
        let totalOperations := results.foldl (fun total result =>
          total + result.OperationsCompleted) 0
        let hasErrors := results.any fun threadResult => decide (threadResult.Error ≠ "")
        let result : LoadGeneratorResult :=
          { Message :=
              if hasErrors then "Load generation completed with some errors"
              else "Load generation completed"
            TotalOperations := totalOperations
            ThreadResults := results
            TestParameters := request }
        let statusCode : Int := if hasErrors then 206 else 200
        match world.marshal result with
        | .error err =>
          { StatusCode := 500
            Body := "\x7b\"error\": \"" ++ err ++
              "\", \"message\": \"Failed to marshal response\"\x7d" }
        | .ok responseBody => { StatusCode := statusCode, Body := responseBody }

/-- A run in which the connection succeeds, every worker makes three passes and
every write and every read fails; `json.Marshal` is represented by the message
of the result. -/
def failingWorld : World where
  environ := Os.Setenv Os.Clearenv "MONGODB_CONNECTION_STRING" "mongodb://test-cluster:27017"
  connectErr := none
  iterations := fun _ =>
    [⟨some "connection reset", some "connection reset"⟩,
     ⟨some "connection reset", some "connection reset"⟩,
     ⟨some "connection reset", some "connection reset"⟩]
  elapsed := fun _ => .fin 60
  marshal := fun result => .ok result.Message

end LoadGenerator

namespace DbScaling

/-- Source function `getEnvInt` of the autoscaler (`lib/db-scaling/main.go`). -/
def getEnvInt (environ : String → Option String) (key : String) (defaultValue : Int) : Int :=
  let value := Os.Getenv environ key
  if value ≠ "" then
    match Strconv.Atoi value with
    | .ok intValue => intValue
    | .error _ => defaultValue
  else defaultValue

/-- The default policy with `COOLDOWN_MINUTES=153722868`, the smallest cooldown
whose `time.Duration` in nanoseconds no longer fits an `int64`. -/
def longCooldownConfig : Config :=
  { defaultConfig "docdb" with cooldownMinutes := 153722868 }

/-- Two readers at minute 100: `r1`, available and created one minute ago, and
`r2`, still being created. -/
def freshTopology : ClusterInfo where
  ReaderCount := 2
  WriterCount := 1
  ReaderInstances :=
    [{ Identifier := "r1", CreateTime := 99 * minute, Status := "available" },
     { Identifier := "r2", CreateTime := 100 * minute, Status := "creating" }]

/-! ## `sort.Slice` since Go 1.19 -/

/-- The `less` the source passes to `sort.Slice`:
`readers[i].CreateTime.Before(readers[j].CreateTime)`.  The sort calls it with
indices inside the slice; for an index outside it the value here is `false`. -/
def Less (data : List ReaderInstance) (i j : Nat) : Bool :=
  match data[i]?, data[j]? with
  | some x, some y => decide (x.CreateTime < y.CreateTime)
  | _, _ => false

/-- The `swap` of `sort.Slice`: exchanges `data[i]` and `data[j]`.  The sort calls
it with indices inside the slice; for an index outside it the slice is left as it
is here. -/
def Swap (data : List ReaderInstance) (i j : Nat) : List ReaderInstance :=
  match data[i]?, data[j]? with
  | some x, some y => (data.set i y).set j x
  | _, _ => data

/-- Go `insertionSort_func(data, a, b)`: insertion sort of `data[a:b]`, the rest
of the slice is left as it is. -/
def insertionSort_func (data : List ReaderInstance) (a b : Nat) : List ReaderInstance :=
  data.take a ++ insertionSort ((data.drop a).take (b - a)) ++ data.drop b

/-- The loop of Go `siftDown_func`, from the current `root`.  `root` grows in every
pass and stays below `hi`, the number of passes allowed. -/
def siftDown_func.loop (hi first : Nat) :
    Nat → Nat → List ReaderInstance → List ReaderInstance
  | 0, _, data => data
  | passes + 1, root, data =>
    if 2 * root + 1 ≥ hi then data
    else
      let child :=
        if 2 * root + 1 + 1 < hi ∧
            Less data (first + (2 * root + 1)) (first + (2 * root + 1) + 1) then
          2 * root + 1 + 1
        else 2 * root + 1
      if !Less data (first + root) (first + child) then data
      else
        siftDown_func.loop hi first passes child (Swap data (first + root) (first + child))

/-- Go `siftDown_func(data, lo, hi, first)`. -/
def siftDown_func (data : List ReaderInstance) (lo hi first : Nat) : List ReaderInstance :=
  siftDown_func.loop hi first hi lo data

/-- The loop `for i := (hi - 1) / 2; i >= 0; i-- { siftDown_func(data, i, hi, first) }`
of Go `heapSort_func`; the first argument is `i + 1`. -/
def heapSort_func.build (hi first : Nat) : Nat → List ReaderInstance → List ReaderInstance
  | 0, data => data
  | i + 1, data => heapSort_func.build hi first i (siftDown_func data i hi first)

/-- The loop `for i := hi - 1; i >= 0; i-- { data.Swap(first, first+i);
siftDown_func(data, lo, i, first) }` of Go `heapSort_func`; the first argument is
`i + 1`. -/
def heapSort_func.pop (first : Nat) : Nat → List ReaderInstance → List ReaderInstance
  | 0, data => data
  | i + 1, data =>
    heapSort_func.pop first i (siftDown_func (Swap data first (first + i)) 0 i first)

/-- Go `heapSort_func(data, a, b)`. -/
def heapSort_func (data : List ReaderInstance) (a b : Nat) : List ReaderInstance :=
  heapSort_func.pop a (b - a) (heapSort_func.build (b - a) a ((b - a - 1) / 2 + 1) data)

/-- Go `(*xorshift).Next` on a `uint64` state, with the shifts 13, 7 and 17 of the
current standard library. -/
def xorshift.Next (r : Nat) : Nat :=
  let r1 := r ^^^ ((r <<< 13) % 2 ^ 64)
  let r2 := r1 ^^^ (r1 >>> 7)
  r2 ^^^ ((r2 <<< 17) % 2 ^ 64)

/-- Go `bits.Len(x)`: the number of bits needed to write `x`. -/
def bitsLen (x : Nat) : Nat :=
  if x = 0 then 0 else Nat.log2 x + 1

/-- Go `nextPowerOfTwo(length)`. -/
def nextPowerOfTwo (length : Nat) : Nat :=
  1 <<< bitsLen length

/-- The loop `for i := 0; i < 3; i++` of Go `breakPatterns_func`; the first
argument counts the passes left. -/
def breakPatterns_func.loop (a length modulus idx : Nat) :
    Nat → Nat → Nat → List ReaderInstance → List ReaderInstance
  | 0, _, _, data => data
  | passes + 1, i, random, data =>
    let next := xorshift.Next random
    let other := next &&& (modulus - 1)
    let other := if other ≥ length then other - length else other
    breakPatterns_func.loop a length modulus idx passes (i + 1) next
      (Swap data (idx - 1 + i) (a + other))

/-- Go `breakPatterns_func(data, a, b)`. -/
def breakPatterns_func (data : List ReaderInstance) (a b : Nat) : List ReaderInstance :=
  if b - a ≥ 8 then
    breakPatterns_func.loop a (b - a) (nextPowerOfTwo (b - a)) (a + (b - a) / 4 * 2 - 1)
      3 0 (b - a) data
  else data

/-- Go `sortedHint`. -/
inductive sortedHint where
  | unknownHint
  | increasingHint
  | decreasingHint
deriving DecidableEq

/-- Go `order2_func(data, a, b, &swaps)`: the two indices in order and the new
count of swaps. -/
def order2_func (data : List ReaderInstance) (a b swaps : Nat) : Nat × Nat × Nat :=
  if Less data b a then (b, a, swaps + 1) else (a, b, swaps)

/-- Go `median_func(data, a, b, c, &swaps)`: the index of the median and the new
count of swaps. -/
def median_func (data : List ReaderInstance) (a b c swaps : Nat) : Nat × Nat :=
  match order2_func data a b swaps with
  | (a1, b1, swaps1) =>
    match order2_func data b1 c swaps1 with
    | (b2, _, swaps2) =>
      match order2_func data a1 b2 swaps2 with
      | (_, b3, swaps3) => (b3, swaps3)

/-- Go `medianAdjacent_func(data, a, &swaps)`. -/
def medianAdjacent_func (data : List ReaderInstance) (a swaps : Nat) : Nat × Nat :=
  median_func data (a - 1) a (a + 1) swaps

/-- Go `choosePivot_func(data, a, b)`. -/
def choosePivot_func (data : List ReaderInstance) (a b : Nat) : Nat × sortedHint :=
  let l := b - a
  let i := a + l / 4 * 1
  let j := a + l / 4 * 2
  let k := a + l / 4 * 3
  let chosen : Nat × Nat :=
    if l ≥ 8 then
      if l ≥ 50 then
        match medianAdjacent_func data i 0 with
        | (i1, swaps1) =>
          match medianAdjacent_func data j swaps1 with
          | (j1, swaps2) =>
            match medianAdjacent_func data k swaps2 with
            | (k1, swaps3) => median_func data i1 j1 k1 swaps3
      else median_func data i j k 0
    else (j, 0)
  if chosen.2 = 0 then (chosen.1, .increasingHint)
  else if chosen.2 = 4 * 3 then (chosen.1, .decreasingHint)
  else (chosen.1, .unknownHint)

/-- The loop of Go `reverseRange_func`; the first argument bounds the passes. -/
def reverseRange_func.loop : Nat → Nat → Nat → List ReaderInstance → List ReaderInstance
  | 0, _, _, data => data
  | passes + 1, i, j, data =>
    if i < j then reverseRange_func.loop passes (i + 1) (j - 1) (Swap data i j) else data

/-- Go `reverseRange_func(data, a, b)`. -/
def reverseRange_func (data : List ReaderInstance) (a b : Nat) : List ReaderInstance :=
  reverseRange_func.loop (b - a) a (b - 1) data

/-- The loop `for i < b && !data.Less(i, i-1) { i++ }` of Go
`partialInsertionSort_func`; the first argument is `b - i`. -/
def partialInsertionSort_func.scan (data : List ReaderInstance) (b : Nat) : Nat → Nat → Nat
  | 0, i => i
  | left + 1, i =>
    if i < b ∧ !Less data i (i - 1) then partialInsertionSort_func.scan data b left (i + 1)
    else i

/-- The loop `for j := i - 1; j >= 1; j-- { if !data.Less(j, j-1) { break };
data.Swap(j, j-1) }` of Go `partialInsertionSort_func`, from `j`. -/
def partialInsertionSort_func.shiftLeft : Nat → List ReaderInstance → List ReaderInstance
  | 0, data => data
  | j + 1, data =>
    if !Less data (j + 1) j then data
    else partialInsertionSort_func.shiftLeft j (Swap data (j + 1) j)

/-- The loop `for j := i + 1; j < b; j++ { if !data.Less(j, j-1) { break };
data.Swap(j, j-1) }` of Go `partialInsertionSort_func`, from `j`; the first
argument is `b - j`. -/
def partialInsertionSort_func.shiftRight (b : Nat) :
    Nat → Nat → List ReaderInstance → List ReaderInstance
  | 0, _, data => data
  | left + 1, j, data =>
    if j < b then
      if !Less data j (j - 1) then data
      else partialInsertionSort_func.shiftRight b left (j + 1) (Swap data j (j - 1))
    else data

/-- The loop `for j := 0; j < maxSteps; j++` of Go `partialInsertionSort_func`;
the first argument counts the steps left. -/
def partialInsertionSort_func.steps (a b : Nat) :
    Nat → Nat → List ReaderInstance → List ReaderInstance × Bool
  | 0, _, data => (data, false)
  | left + 1, i, data =>
    let i1 := partialInsertionSort_func.scan data b (b - i) i
    if i1 = b then (data, true)
    else if b - a < 50 then (data, false)
    else
      let swapped := Swap data i1 (i1 - 1)
      let shifted :=
        if i1 - a ≥ 2 then partialInsertionSort_func.shiftLeft (i1 - 1) swapped else swapped
      let shifted2 :=
        if b - i1 ≥ 2 then
          partialInsertionSort_func.shiftRight b (b - (i1 + 1)) (i1 + 1) shifted
        else shifted
      partialInsertionSort_func.steps a b left i1 shifted2

/-- Go `partialInsertionSort_func(data, a, b)`: the slice it leaves and whether it
is sorted. -/
def partialInsertionSort_func (data : List ReaderInstance) (a b : Nat) :
    List ReaderInstance × Bool :=
  partialInsertionSort_func.steps a b 5 (a + 1) data

/-- The loop `for i <= j && data.Less(i, a) { i++ }` of Go `partition_func`; the
first argument is `j + 1 - i`. -/
def partition_func.scanUp (data : List ReaderInstance) (a j : Nat) : Nat → Nat → Nat
  | 0, i => i
  | left + 1, i =>
    if i ≤ j ∧ Less data i a then partition_func.scanUp data a j left (i + 1) else i

/-- The loop `for i <= j && !data.Less(j, a) { j-- }` of Go `partition_func`; the
first argument is `j + 1 - i`. -/
def partition_func.scanDown (data : List ReaderInstance) (a i : Nat) : Nat → Nat → Nat
  | 0, j => j
  | left + 1, j =>
    if i ≤ j ∧ !Less data j a then partition_func.scanDown data a i left (j - 1) else j

/-- The `for { ... }` loop of Go `partition_func`: the slice and the `j` it leaves.
The first argument bounds the passes; every pass moves `i` and `j` towards
each other. -/
def partition_func.loop (a : Nat) :
    Nat → Nat → Nat → List ReaderInstance → List ReaderInstance × Nat
  | 0, _, j, data => (data, j)
  | passes + 1, i, j, data =>
    let i1 := partition_func.scanUp data a j (j + 1 - i) i
    let j1 := partition_func.scanDown data a i1 (j + 1 - i1) j
    if i1 > j1 then (data, j1)
    else partition_func.loop a passes (i1 + 1) (j1 - 1) (Swap data i1 j1)

/-- Go `partition_func(data, a, b, pivot)`: the slice it leaves, `newpivot` and
`alreadyPartitioned`. -/
def partition_func (data : List ReaderInstance) (a b pivot : Nat) :
    List ReaderInstance × Nat × Bool :=
  let swapped := Swap data a pivot
  let i := partition_func.scanUp swapped a (b - 1) (b - 1 + 1 - (a + 1)) (a + 1)
  let j := partition_func.scanDown swapped a i (b - 1 + 1 - i) (b - 1)
  if i > j then (Swap swapped j a, j, true)
  else
    match partition_func.loop a (b - a) (i + 1) (j - 1) (Swap swapped i j) with
    | (parted, j1) => (Swap parted j1 a, j1, false)

/-- The loop `for i <= j && !data.Less(a, i) { i++ }` of Go `partitionEqual_func`;
the first argument is `j + 1 - i`. -/
def partitionEqual_func.scanUp (data : List ReaderInstance) (a j : Nat) : Nat → Nat → Nat
  | 0, i => i
  | left + 1, i =>
    if i ≤ j ∧ !Less data a i then partitionEqual_func.scanUp data a j left (i + 1) else i

/-- The loop `for i <= j && data.Less(a, j) { j-- }` of Go `partitionEqual_func`;
the first argument is `j + 1 - i`. -/
def partitionEqual_func.scanDown (data : List ReaderInstance) (a i : Nat) : Nat → Nat → Nat
  | 0, j => j
  | left + 1, j =>
    if i ≤ j ∧ Less data a j then partitionEqual_func.scanDown data a i left (j - 1) else j

/-- The `for { ... }` loop of Go `partitionEqual_func`: the slice and the `i` it
leaves.  The first argument bounds the passes. -/
def partitionEqual_func.loop (a : Nat) :
    Nat → Nat → Nat → List ReaderInstance → List ReaderInstance × Nat
  | 0, i, _, data => (data, i)
  | passes + 1, i, j, data =>
    let i1 := partitionEqual_func.scanUp data a j (j + 1 - i) i
    let j1 := partitionEqual_func.scanDown data a i1 (j + 1 - i1) j
    if i1 > j1 then (data, i1)
    else partitionEqual_func.loop a passes (i1 + 1) (j1 - 1) (Swap data i1 j1)

/-- Go `partitionEqual_func(data, a, b, pivot)`: the slice it leaves and
`newpivot`. -/
def partitionEqual_func (data : List ReaderInstance) (a b pivot : Nat) :
    List ReaderInstance × Nat :=
  partitionEqual_func.loop a (b - a + 1) (a + 1) (b - 1) (Swap data a pivot)

/-- Go `pdqsort_func(data, a, b, limit)`, entered with the given `wasBalanced` and
`wasPartitioned` (both `true` at a call).  One unit of the first argument is
spent per pass of the `for` loop and per nested call; `none` means they ran
out, `some` is the slice the function leaves. -/
def pdqsort_func :
    Nat → List ReaderInstance → Nat → Nat → Nat → Bool → Bool → Option (List ReaderInstance)
  | 0, _, _, _, _, _, _ => none
  | passes + 1, data, a, b, limit, wasBalanced, wasPartitioned =>
    if b - a ≤ 12 then some (insertionSort_func data a b)
    else if limit = 0 then some (heapSort_func data a b)
    else
      let broken := if !wasBalanced then breakPatterns_func data a b else data
      let limit1 := if !wasBalanced then limit - 1 else limit
      let chosen := choosePivot_func broken a b
      let reversed :=
        if chosen.2 = .decreasingHint then reverseRange_func broken a b else broken
      let pivot := if chosen.2 = .decreasingHint then (b - 1) - (chosen.1 - a) else chosen.1
      let hint := if chosen.2 = .decreasingHint then sortedHint.increasingHint else chosen.2
      let tried :=
        if wasBalanced ∧ wasPartitioned ∧ hint = .increasingHint then
          partialInsertionSort_func reversed a b
        else (reversed, false)
      if tried.2 then some tried.1
      else if a > 0 ∧ !Less tried.1 (a - 1) pivot then
        match partitionEqual_func tried.1 a b pivot with
        | (parted, mid) => pdqsort_func passes parted mid b limit1 wasBalanced wasPartitioned
      else
        match partition_func tried.1 a b pivot with
        | (parted, mid, alreadyPartitioned) =>
          if mid - a < b - mid then
            match pdqsort_func passes parted a mid limit1 true true with
            | none => none
            | some left =>
              pdqsort_func passes left (mid + 1) b limit1
                (decide (mid - a ≥ (b - a) / 8)) alreadyPartitioned
          else
            match pdqsort_func passes parted (mid + 1) b limit1 true true with
            | none => none
            | some right =>
              pdqsort_func passes right a mid limit1
                (decide (b - mid ≥ (b - a) / 8)) alreadyPartitioned

/-- Go `sort.Slice(data, less)` since Go 1.19, with the `less` of the source:
`pdqsort_func(data, 0, length, bits.Len(length))`.  The run is given `length + 1`
passes; every pass and every nested call of `pdqsort_func` works on a shorter
part of the slice than the one before.  Should the passes run out, the slice is
returned as it is. -/
def Slice (data : List ReaderInstance) : List ReaderInstance :=
  match pdqsort_func (data.length + 1) data 0 data.length (bitsLen data.length) true true with
  | some sorted => sorted
  | none => data

/-- Thirteen available readers: `r1` and `r2` created at minute 10, the other
eleven at minute 50. -/
def thirteenReaders : List ReaderInstance :=
  [{ Identifier := "r0", CreateTime := 50 * minute, Status := "available" },
   { Identifier := "r1", CreateTime := 10 * minute, Status := "available" },
   { Identifier := "r2", CreateTime := 10 * minute, Status := "available" },
   { Identifier := "r3", CreateTime := 50 * minute, Status := "available" },
   { Identifier := "r4", CreateTime := 50 * minute, Status := "available" },
   { Identifier := "r5", CreateTime := 50 * minute, Status := "available" },
   { Identifier := "r6", CreateTime := 50 * minute, Status := "available" },
   { Identifier := "r7", CreateTime := 50 * minute, Status := "available" },
   { Identifier := "r8", CreateTime := 50 * minute, Status := "available" },
   { Identifier := "r9", CreateTime := 50 * minute, Status := "available" },
   { Identifier := "r10", CreateTime := 50 * minute, Status := "available" },
   { Identifier := "r11", CreateTime := 50 * minute, Status := "available" },
   { Identifier := "r12", CreateTime := 50 * minute, Status := "available" }]

/-! ## Control plane responses with their pointer fields -/

/-- One entry of `DBCluster.DBClusterMembers` as the SDK types it: both fields are
pointers, `none` is nil. -/
structure Sdk.DBClusterMember where
  IsClusterWriter : Option Bool
  DBInstanceIdentifier : Option String

/-- The fields of `docdb.DBInstance` the collector reads, as the SDK types them:
`*string`, `*time.Time` and `*string`, `none` is nil. -/
structure Sdk.DBInstance where
  DBInstanceIdentifier : Option String
  InstanceCreateTime : Option Int
  DBInstanceStatus : Option String

structure Sdk.DBCluster where
  DBClusterMembers : List Sdk.DBClusterMember

/-- The responses of the control plane within one tick, with the pointer fields
of the SDK.  The describe-instance request carries the member identifier as the
pointer it is. -/
structure Sdk.DocDB where
  DescribeDBClusters : String → Except String (List Sdk.DBCluster)
  DescribeDBInstances : Option String → Except String (List Sdk.DBInstance)
  CreateDBInstance : CreateDBInstanceInput → Option String
  DeleteDBInstance : String → Option String

/-- Body of the `for _, member := range cluster.DBClusterMembers` loop of
`getClusterInfo`, on responses with pointer fields.  The result `none` is a
nil-pointer panic: `*member.DBInstanceIdentifier` in the warning of a failed
lookup, `*instance.DBInstanceIdentifier` or `*instance.DBInstanceStatus` in the
reader entry.  The elements of the lists of a response are taken as non-nil. -/
def Sdk.getClusterInfo.step (client : Sdk.DocDB) (info : ClusterInfo)
    (member : Sdk.DBClusterMember) : Option ClusterInfo :=
  if member.IsClusterWriter = some true then
    some { info with WriterCount := info.WriterCount + 1 }
  else
    match client.DescribeDBInstances member.DBInstanceIdentifier with
    | .error _ =>
      match member.DBInstanceIdentifier with
      | none => none
      | some _ => some info
    | .ok [] => some info
    | .ok (inst :: _) =>
      match inst.InstanceCreateTime with
      | none => some info
      | some createTime =>
        match inst.DBInstanceIdentifier with
        | none => none
        | some identifier =>
          match inst.DBInstanceStatus with
          | none => none
          | some status =>
            some { info with
              ReaderInstances := info.ReaderInstances ++
                [{ Identifier := identifier, CreateTime := createTime, Status := status }]
              ReaderCount := info.ReaderCount + 1 }

/-- The `for _, member := range cluster.DBClusterMembers` loop of `getClusterInfo`:
a panic in one iteration ends the run. -/
def Sdk.getClusterInfo.loop (client : Sdk.DocDB) (info : ClusterInfo) :
    List Sdk.DBClusterMember → Option ClusterInfo
  | [] => some info
  | member :: members =>
    match Sdk.getClusterInfo.step client info member with
    | none => none
    | some next => Sdk.getClusterInfo.loop client next members

/-- Source function `getClusterInfo` on responses with pointer fields: `none`
when the run panics, otherwise what it returns. -/
def Sdk.getClusterInfo (client : Sdk.DocDB) (cfg : Config) :
    Option (Except String ClusterInfo) :=
  match client.DescribeDBClusters cfg.clusterIdentifier with
  | .error err => some (.error ("failed to describe cluster: " ++ err))
  | .ok [] => some (.error ("cluster " ++ cfg.clusterIdentifier ++ " not found"))
  | .ok (cluster :: _) =>
    (Sdk.getClusterInfo.loop client
      { ReaderCount := 0, WriterCount := 0, ReaderInstances := [] }
      cluster.DBClusterMembers).map Except.ok

/-- The lifecycle calls of a control plane, in the form the actuator takes them.
The actuator makes no describe call. -/
def Sdk.DocDB.lifecycle (client : Sdk.DocDB) : DocDBClient where
  DescribeDBClusters := fun _ => .ok []
  DescribeDBInstances := fun _ => .ok []
  CreateDBInstance := client.CreateDBInstance
  DeleteDBInstance := client.DeleteDBInstance

/-- Source function `handler` on responses with pointer fields: `none` when the
run panics (no `Response` is returned), otherwise what it returns and sends. -/
def Sdk.handler (client : Sdk.DocDB) (cloudwatch : CloudWatchClient) (arith : Float64Arith)
    (cfg : Config) (sortSlice : List ReaderInstance → List ReaderInstance)
    (metricsNow actionNow : Int) (_event : SchedulerEvent) : Option HandlerResult :=
  match Sdk.getClusterInfo client cfg with
  | none => none
  | some (.error err) =>
    some { response := { StatusCode := 500, Body := "Error: " ++ err }, err := none
           calls := [] }
  | some (.ok clusterInfo) =>
    match getCurrentMetrics cloudwatch arith cfg metricsNow with
    | .error err =>
      some { response := { StatusCode := 500, Body := "Error: " ++ err }, err := none
             calls := [] }
    | .ok metrics =>
      let decision := makeScalingDecision cfg clusterInfo metrics
      if decision.Action ≠ "none" then
        let outcome :=
          executeScalingAction client.lifecycle cfg sortSlice actionNow decision clusterInfo
        match outcome.err with
        | some err =>
          some { response := { StatusCode := 500, Body := "Error: " ++ err }
                 err := none
                 calls := outcome.calls }
        | none =>
          some { response :=
                   { StatusCode := 200, Body := "Scaling decision: " ++ decision.Action }
                 err := none
                 calls := outcome.calls }
      else
        some { response :=
                 { StatusCode := 200, Body := "Scaling decision: " ++ decision.Action }
               err := none
               calls := [] }

/-- A response entry with every pointer set. -/
def DBClusterMember.toSdk (member : DBClusterMember) : Sdk.DBClusterMember where
  IsClusterWriter := member.IsClusterWriter
  DBInstanceIdentifier := some member.DBInstanceIdentifier

/-- A described instance with identifier and status set. -/
def DBInstance.toSdk (inst : DBInstance) : Sdk.DBInstance where
  DBInstanceIdentifier := some inst.DBInstanceIdentifier
  InstanceCreateTime := inst.InstanceCreateTime
  DBInstanceStatus := some inst.DBInstanceStatus

def DBCluster.toSdk (cluster : DBCluster) : Sdk.DBCluster where
  DBClusterMembers := cluster.DBClusterMembers.map DBClusterMember.toSdk

/-- The control plane `client` answers as `sdk` does, and every member identifier,
instance identifier and instance status in the answers of `sdk` is set. -/
def Sdk.Populated (sdk : Sdk.DocDB) (client : DocDBClient) : Prop :=
  (∀ id, sdk.DescribeDBClusters id =
    (client.DescribeDBClusters id).map (List.map DBCluster.toSdk)) ∧
  (∀ id, sdk.DescribeDBInstances (some id) =
    (client.DescribeDBInstances id).map (List.map DBInstance.toSdk)) ∧
  sdk.CreateDBInstance = client.CreateDBInstance ∧
  sdk.DeleteDBInstance = client.DeleteDBInstance

/-- A cluster of one writer and one reader `r1`; the described instance of `r1`
has a creation time and no status. -/
def Sdk.statuslessClient : Sdk.DocDB where
  DescribeDBClusters := fun _ =>
    .ok [{ DBClusterMembers :=
      [{ IsClusterWriter := some true, DBInstanceIdentifier := some "writer" },
       { IsClusterWriter := some false, DBInstanceIdentifier := some "r1" }] }]
  DescribeDBInstances := fun _ =>
    .ok [{ DBInstanceIdentifier := some "r1", InstanceCreateTime := some (80 * minute)
           DBInstanceStatus := none }]
  CreateDBInstance := fun _ => none
  DeleteDBInstance := fun _ => none

/-- The cluster of `Sdk.statuslessClient` with the status of `r1` set. -/
def Sdk.availableClient : Sdk.DocDB where
  DescribeDBClusters := Sdk.statuslessClient.DescribeDBClusters
  DescribeDBInstances := fun _ =>
    .ok [{ DBInstanceIdentifier := some "r1", InstanceCreateTime := some (80 * minute)
           DBInstanceStatus := some "available" }]
  CreateDBInstance := fun _ => none
  DeleteDBInstance := fun _ => none

/-! ## Decision engine: properties -/

/-- C1: the action returned by `makeScalingDecision` is the action of the ordered
first-match rule chain (CPU scale-out, then connections scale-out, then low-CPU
scale-in, otherwise none), for every topology, metrics snapshot and policy. -/
theorem makeScalingDecision_action_eq_ruleChain (cfg : Config) (clusterInfo : ClusterInfo)
    (metrics : Metrics) :
    (makeScalingDecision cfg clusterInfo metrics).Action =
      (ruleChainAction cfg clusterInfo metrics).code := by
  unfold makeScalingDecision ruleChainAction cpuScaleOutRule connectionsScaleOutRule
    scaleInRule
  split_ifs <;> first | rfl | (exfalso; tauto)

/-- Under `cpuScaleInThreshold < cpuScaleOutThreshold` no writer CPU value is both
at or above the scale-out threshold and at or below the scale-in threshold. -/
theorem Float64.not_ge_and_le_of_lt {x lo hi : Float64} (hlt : lo.lt hi = true)
    (hge : x.ge hi = true) (hle : x.le lo = true) : False := by
  cases x <;> cases lo <;> cases hi <;>
    simp [Float64.lt, Float64.ge, Float64.le] at hlt hge hle
  linarith

/-- C2 (as stated, refuted): with the default policy (30 < 70), two readers,
writer and reader CPU at 10 and 500 writer connections, the connections
scale-out rule and the scale-in rule hold together. -/
theorem scaleOut_and_scaleIn_rules_both_hold :
    (defaultConfig "docdb").cpuScaleInThreshold.lt
        (defaultConfig "docdb").cpuScaleOutThreshold = true ∧
      (cpuScaleOutRule (defaultConfig "docdb") ⟨2, 1, []⟩ ⟨.fin 10, .fin 10, .fin 500, 0⟩ ∨
        connectionsScaleOutRule (defaultConfig "docdb") ⟨2, 1, []⟩
          ⟨.fin 10, .fin 10, .fin 500, 0⟩) ∧
      scaleInRule (defaultConfig "docdb") ⟨2, 1, []⟩ ⟨.fin 10, .fin 10, .fin 500, 0⟩ := by
  simp [defaultConfig, cpuScaleOutRule, connectionsScaleOutRule, scaleInRule,
    Float64.lt, Float64.ge, Float64.le]
  norm_num

/-- C2 (amended): when `cpuScaleInThreshold < cpuScaleOutThreshold`, the writer-CPU
scale-out rule and the scale-in rule never hold together; the connections
scale-out rule can hold together with the scale-in rule, and then the engine,
which checks scale-out first, returns `scale_out`. -/
theorem cpuScaleOut_scaleIn_exclusive (cfg : Config) (clusterInfo : ClusterInfo)
    (metrics : Metrics)
    (hlt : cfg.cpuScaleInThreshold.lt cfg.cpuScaleOutThreshold = true) :
    ¬ (cpuScaleOutRule cfg clusterInfo metrics ∧ scaleInRule cfg clusterInfo metrics) ∧
      (connectionsScaleOutRule cfg clusterInfo metrics ∧ scaleInRule cfg clusterInfo metrics →
        (makeScalingDecision cfg clusterInfo metrics).Action = "scale_out") := by
  constructor
  · rintro ⟨⟨hge, _⟩, _, hle, _⟩
    exact Float64.not_ge_and_le_of_lt hlt hge hle
  · rintro ⟨⟨hconn, hmax⟩, _⟩
    unfold makeScalingDecision
    split_ifs <;> first | rfl | (exfalso; tauto)

/-- Witness for C2 (amended) at the default policy with 500 writer connections. -/
theorem cpuScaleOut_scaleIn_exclusive_witness :
    (defaultConfig "docdb").cpuScaleInThreshold.lt
        (defaultConfig "docdb").cpuScaleOutThreshold = true ∧
      (¬ (cpuScaleOutRule (defaultConfig "docdb") ⟨2, 1, []⟩ ⟨.fin 10, .fin 10, .fin 500, 0⟩ ∧
          scaleInRule (defaultConfig "docdb") ⟨2, 1, []⟩ ⟨.fin 10, .fin 10, .fin 500, 0⟩) ∧
        (connectionsScaleOutRule (defaultConfig "docdb") ⟨2, 1, []⟩
            ⟨.fin 10, .fin 10, .fin 500, 0⟩ ∧
          scaleInRule (defaultConfig "docdb") ⟨2, 1, []⟩ ⟨.fin 10, .fin 10, .fin 500, 0⟩ →
          (makeScalingDecision (defaultConfig "docdb") ⟨2, 1, []⟩
            ⟨.fin 10, .fin 10, .fin 500, 0⟩).Action = "scale_out")) :=
  ⟨by simp [defaultConfig, Float64.lt]; norm_num,
    cpuScaleOut_scaleIn_exclusive (defaultConfig "docdb") ⟨2, 1, []⟩
      ⟨.fin 10, .fin 10, .fin 500, 0⟩ (by simp [defaultConfig, Float64.lt]; norm_num)⟩

/-- C3: when `readerCount >= maxReplicas` (in particular when they are equal),
`makeScalingDecision` does not return `scale_out`, whatever the metrics are. -/
theorem no_scaleOut_at_maxReplicas (cfg : Config) (clusterInfo : ClusterInfo)
    (metrics : Metrics) (hmax : cfg.maxReadReplicas ≤ clusterInfo.ReaderCount) :
    (makeScalingDecision cfg clusterInfo metrics).Action ≠ "scale_out" := by
  have h : ¬ clusterInfo.ReaderCount < cfg.maxReadReplicas := not_lt.mpr hmax
  unfold makeScalingDecision
  split_ifs <;> first | (exfalso; tauto) | simp

/-- Witness for C3: ten readers under the default policy, writer CPU 95 and 900
connections. -/
theorem no_scaleOut_at_maxReplicas_witness :
    (defaultConfig "docdb").maxReadReplicas ≤ (⟨10, 1, []⟩ : ClusterInfo).ReaderCount ∧
      (makeScalingDecision (defaultConfig "docdb") ⟨10, 1, []⟩
        ⟨.fin 95, .fin 95, .fin 900, 0⟩).Action ≠ "scale_out" :=
  ⟨by decide, no_scaleOut_at_maxReplicas (defaultConfig "docdb") ⟨10, 1, []⟩
    ⟨.fin 95, .fin 95, .fin 900, 0⟩ (by decide)⟩

/-- C4: when `readerCount <= minReplicas` (in particular when they are equal),
`makeScalingDecision` does not return `scale_in`, whatever the metrics are. -/
theorem no_scaleIn_at_minReplicas (cfg : Config) (clusterInfo : ClusterInfo)
    (metrics : Metrics) (hmin : clusterInfo.ReaderCount ≤ cfg.minReadReplicas) :
    (makeScalingDecision cfg clusterInfo metrics).Action ≠ "scale_in" := by
  have h : ¬ clusterInfo.ReaderCount > cfg.minReadReplicas := not_lt.mpr hmin
  unfold makeScalingDecision
  split_ifs <;> first | (exfalso; tauto) | simp

/-- Witness for C4: one reader under the default policy, all metrics at zero. -/
theorem no_scaleIn_at_minReplicas_witness :
    (⟨1, 1, []⟩ : ClusterInfo).ReaderCount ≤ (defaultConfig "docdb").minReadReplicas ∧
      (makeScalingDecision (defaultConfig "docdb") ⟨1, 1, []⟩
        ⟨.fin 0, .fin 0, .fin 0, 0⟩).Action ≠ "scale_in" :=
  ⟨by decide, no_scaleIn_at_minReplicas (defaultConfig "docdb") ⟨1, 1, []⟩
    ⟨.fin 0, .fin 0, .fin 0, 0⟩ (by decide)⟩

/-- C5 (as stated, refuted): under the default policy, (a) with ten readers
(the maximum), 500 writer connections and CPU at 10 on both roles, the
connections threshold is crossed and the bound prevents scale-out, yet the
decision is `scale_in`; (b) with one reader (the minimum), CPU at 10 on both
roles and 500 writer connections, the low-CPU condition holds and the bound
prevents scale-in, yet the decision is `scale_out`. -/
theorem blocked_threshold_not_none :
    ((Float64.fin 500).ge (defaultConfig "docdb").connectionsScaleOutThreshold = true ∧
      (defaultConfig "docdb").maxReadReplicas ≤ (⟨10, 1, []⟩ : ClusterInfo).ReaderCount ∧
      (makeScalingDecision (defaultConfig "docdb") ⟨10, 1, []⟩
        ⟨.fin 10, .fin 10, .fin 500, 0⟩).Action = "scale_in") ∧
    ((Float64.fin 10).le (defaultConfig "docdb").cpuScaleInThreshold = true ∧
      (⟨1, 1, []⟩ : ClusterInfo).ReaderCount ≤ (defaultConfig "docdb").minReadReplicas ∧
      (makeScalingDecision (defaultConfig "docdb") ⟨1, 1, []⟩
        ⟨.fin 10, .fin 10, .fin 500, 0⟩).Action = "scale_out") := by
  simp [defaultConfig, makeScalingDecision, Float64.ge, Float64.le]
  norm_num

/-- C5 (amended): when a threshold is crossed but the replica bound prevents the
corresponding action, `makeScalingDecision` falls through to the remaining rules:
with a scale-out threshold crossed at `readerCount >= maxReplicas` it returns
`scale_in` if the low-CPU scale-in rule holds and `none` otherwise; with the
low-CPU condition met at `readerCount <= minReplicas` it returns `scale_out` if a
scale-out rule holds and `none` otherwise.  It never returns the prevented action. -/
theorem blocked_threshold_falls_through (cfg : Config) (clusterInfo : ClusterInfo)
    (metrics : Metrics) :
    ((metrics.WriterCPU.ge cfg.cpuScaleOutThreshold = true ∨
        metrics.WriterConnections.ge cfg.connectionsScaleOutThreshold = true) →
      cfg.maxReadReplicas ≤ clusterInfo.ReaderCount →
      (makeScalingDecision cfg clusterInfo metrics).Action =
        if scaleInRule cfg clusterInfo metrics then "scale_in" else "none") ∧
    (metrics.ReaderCPU.le cfg.cpuScaleInThreshold = true ∧
        metrics.WriterCPU.le cfg.cpuScaleInThreshold = true →
      clusterInfo.ReaderCount ≤ cfg.minReadReplicas →
      (makeScalingDecision cfg clusterInfo metrics).Action =
        if cpuScaleOutRule cfg clusterInfo metrics ∨
            connectionsScaleOutRule cfg clusterInfo metrics then "scale_out" else "none") := by
  constructor
  · intro _ hmax
    have h : ¬ clusterInfo.ReaderCount < cfg.maxReadReplicas := not_lt.mpr hmax
    unfold makeScalingDecision scaleInRule
    split_ifs <;> first | rfl | (exfalso; tauto)
  · intro _ hmin
    have h : ¬ clusterInfo.ReaderCount > cfg.minReadReplicas := not_lt.mpr hmin
    unfold makeScalingDecision cpuScaleOutRule connectionsScaleOutRule
    split_ifs <;> first | rfl | (exfalso; tauto)

/-- Witness for C5 (amended): writer CPU 85 with ten readers under the default
policy gives `none`; the second part is instantiated at one reader with all
metrics at 10. -/
theorem blocked_threshold_falls_through_witness :
    (makeScalingDecision (defaultConfig "docdb") ⟨10, 1, []⟩
        ⟨.fin 85, .fin 20, .fin 0, 0⟩).Action = "none" ∧
      (makeScalingDecision (defaultConfig "docdb") ⟨1, 1, []⟩
        ⟨.fin 10, .fin 10, .fin 10, 0⟩).Action = "none" := by
  have h := blocked_threshold_falls_through (defaultConfig "docdb") ⟨10, 1, []⟩
    ⟨.fin 85, .fin 20, .fin 0, 0⟩
  have h2 := blocked_threshold_falls_through (defaultConfig "docdb") ⟨1, 1, []⟩
    ⟨.fin 10, .fin 10, .fin 10, 0⟩
  refine ⟨?_, ?_⟩
  · rw [h.1 (Or.inl (by simp [defaultConfig, Float64.ge, Float64.le]; norm_num)) (by decide)]
    simp [scaleInRule, defaultConfig, Float64.le]
    norm_num
  · rw [h2.2 (by simp [defaultConfig, Float64.le]; norm_num) (by decide)]
    simp [cpuScaleOutRule, connectionsScaleOutRule, defaultConfig, Float64.ge, Float64.le]
    norm_num

/-- C6 (as stated, refuted): at writer CPU 85, reader CPU 20, three readers and
the default policy, the decision is `scale_out`, but its reason is the
source's `Writer CPU utilization high`, not `writer CPU high`. -/
theorem scaleOut_cpu_reason_differs :
    (makeScalingDecision (defaultConfig "docdb") ⟨3, 1, []⟩
        ⟨.fin 85, .fin 20, .fin 0, 0⟩).Action = "scale_out" ∧
      (makeScalingDecision (defaultConfig "docdb") ⟨3, 1, []⟩
        ⟨.fin 85, .fin 20, .fin 0, 0⟩).Reason ≠ "writer CPU high" := by
  have h : (70 : ℚ) ≤ 85 := by norm_num
  simp [defaultConfig, makeScalingDecision, Float64.ge, Float64.le, h]

/-- C6 (amended): whenever `writerCPU >= cpuScaleOutThreshold` and
`readerCount < maxReplicas`, `makeScalingDecision` returns `scale_out` with reason
`Writer CPU utilization high`, threshold `cpuScaleOutThreshold` and triggering
metric `writerCPU`, whatever the connection count and the reader CPU are. -/
theorem scaleOut_on_writer_cpu (cfg : Config) (clusterInfo : ClusterInfo) (metrics : Metrics)
    (hcpu : metrics.WriterCPU.ge cfg.cpuScaleOutThreshold = true)
    (hmax : clusterInfo.ReaderCount < cfg.maxReadReplicas) :
    makeScalingDecision cfg clusterInfo metrics =
      { Action := "scale_out"
        Reason := "Writer CPU utilization high"
        Threshold := cfg.cpuScaleOutThreshold
        Current := metrics.WriterCPU } := by
  unfold makeScalingDecision
  rw [if_pos ⟨hcpu, hmax⟩]

/-- Witness for C6 (amended): writer CPU 85, reader CPU 20, three readers, at most
ten replicas, default thresholds. -/
theorem scaleOut_on_writer_cpu_witness :
    (Float64.fin 85).ge (defaultConfig "docdb").cpuScaleOutThreshold = true ∧
      (3 : Int) < (defaultConfig "docdb").maxReadReplicas ∧
      makeScalingDecision (defaultConfig "docdb") ⟨3, 1, []⟩ ⟨.fin 85, .fin 20, .fin 0, 0⟩ =
        { Action := "scale_out"
          Reason := "Writer CPU utilization high"
          Threshold := .fin 70
          Current := .fin 85 } :=
  ⟨by simp [defaultConfig, Float64.ge, Float64.le]; norm_num, by decide,
    scaleOut_on_writer_cpu (defaultConfig "docdb") ⟨3, 1, []⟩ ⟨.fin 85, .fin 20, .fin 0, 0⟩
      (by simp [defaultConfig, Float64.ge, Float64.le]; norm_num) (by decide)⟩

/-! ## `sort.Slice`: the implementations meet the contract -/

theorem insertionSort.bubble_perm (x : ReaderInstance) (l : List ReaderInstance) :
    (insertionSort.bubble x l).Perm (x :: l) := by
  induction l with
  | nil => simp [insertionSort.bubble]
  | cons y ys ih =>
    unfold insertionSort.bubble
    split_ifs
    · exact (List.Perm.cons y ih).trans (List.Perm.swap x y ys)
    · exact List.Perm.refl _

theorem insertionSort.foldl_perm (data acc : List ReaderInstance) :
    (data.foldl (fun prefixRev x => insertionSort.bubble x prefixRev) acc).Perm
      (data ++ acc) := by
  induction data generalizing acc with
  | nil => simp
  | cons x xs ih =>
    simp only [List.foldl_cons, List.cons_append]
    refine (ih _).trans ?_
    exact (List.Perm.append_left xs (insertionSort.bubble_perm x acc)).trans
      List.perm_middle

theorem insertionSort.bubble_sorted (x : ReaderInstance) (l : List ReaderInstance)
    (h : l.Pairwise (fun a b => ¬ a.CreateTime < b.CreateTime)) :
    (insertionSort.bubble x l).Pairwise (fun a b => ¬ a.CreateTime < b.CreateTime) := by
  induction l with
  | nil => simp [insertionSort.bubble]
  | cons y ys ih =>
    rw [List.pairwise_cons] at h
    unfold insertionSort.bubble
    split_ifs with hlt
    · rw [List.pairwise_cons]
      refine ⟨?_, ih h.2⟩
      intro z hz
      rcases List.mem_cons.mp ((insertionSort.bubble_perm x ys).mem_iff.mp hz) with rfl | hz
      · exact not_lt.mpr (le_of_lt hlt)
      · exact h.1 z hz
    · rw [List.pairwise_cons]
      refine ⟨?_, List.pairwise_cons.mpr h⟩
      intro z hz
      rcases List.mem_cons.mp hz with rfl | hz
      · exact hlt
      · have := h.1 z hz
        omega

theorem insertionSort.foldl_sorted (data acc : List ReaderInstance)
    (h : acc.Pairwise (fun a b => ¬ a.CreateTime < b.CreateTime)) :
    (data.foldl (fun prefixRev x => insertionSort.bubble x prefixRev) acc).Pairwise
      (fun a b => ¬ a.CreateTime < b.CreateTime) := by
  induction data generalizing acc with
  | nil => simpa using h
  | cons x xs ih => exact ih _ (insertionSort.bubble_sorted x acc h)

/-- Insertion sort meets the contract of `sort.Slice`. -/
theorem insertionSort_spec : SortSliceSpec insertionSort := by
  intro data
  unfold insertionSort
  constructor
  · refine (List.reverse_perm _).trans ?_
    simpa using insertionSort.foldl_perm data []
  · rw [List.pairwise_reverse]
    exact insertionSort.foldl_sorted data [] List.Pairwise.nil

theorem shellPass.exchange_perm (xs ys : List ReaderInstance) :
    ((shellPass.exchange xs ys).1 ++ (shellPass.exchange xs ys).2).Perm (xs ++ ys) := by
  induction xs generalizing ys with
  | nil => cases ys <;> simp [shellPass.exchange]
  | cons x xs ih =>
    cases ys with
    | nil => simp [shellPass.exchange]
    | cons y ys =>
      have h := ih ys
      have hmid : ∀ a b : ReaderInstance,
          (a :: ((shellPass.exchange xs ys).1 ++ b :: (shellPass.exchange xs ys).2)).Perm
            (a :: (xs ++ b :: ys)) := fun a b =>
        List.Perm.cons a ((List.perm_middle.trans (List.Perm.cons b h)).trans
          List.perm_middle.symm)
      unfold shellPass.exchange
      split_ifs
      · simp only [List.cons_append]
        refine (hmid y x).trans ?_
        refine (List.Perm.cons y List.perm_middle).trans ?_
        refine (List.Perm.swap x y _).trans ?_
        exact List.Perm.cons x List.perm_middle.symm
      · simpa using hmid x y

theorem shellPass_perm (data : List ReaderInstance) : (shellPass data).Perm data := by
  unfold shellPass
  simpa using shellPass.exchange_perm (data.take 6) (data.drop 6)

/-- The gap-6 pass followed by insertion sort meets the contract of `sort.Slice`. -/
theorem shellInsertionSort_spec : SortSliceSpec shellInsertionSort := by
  intro data
  unfold shellInsertionSort
  exact ⟨(insertionSort_spec (shellPass data)).1.trans (shellPass_perm data),
    (insertionSort_spec (shellPass data)).2⟩

/-! ## Topology collector: the reader count is the number of listed readers -/

theorem getClusterInfo.step_readerCount (client : DocDBClient) (info : ClusterInfo)
    (member : DBClusterMember) (h : info.ReaderCount = info.ReaderInstances.length) :
    (getClusterInfo.step client info member).ReaderCount =
      (getClusterInfo.step client info member).ReaderInstances.length := by
  unfold getClusterInfo.step
  split_ifs
  · simpa using h
  · split
    · exact h
    · exact h
    · split
      · exact h
      · simp [h]

theorem getClusterInfo.foldl_readerCount (client : DocDBClient)
    (members : List DBClusterMember) (info : ClusterInfo)
    (h : info.ReaderCount = info.ReaderInstances.length) :
    (members.foldl (getClusterInfo.step client) info).ReaderCount =
      (members.foldl (getClusterInfo.step client) info).ReaderInstances.length := by
  induction members generalizing info with
  | nil => simpa using h
  | cons m ms ih => exact ih _ (getClusterInfo.step_readerCount client info m h)

/-- Every topology the collector returns has `ReaderCount = len(ReaderInstances)`. -/
theorem getClusterInfo_readerCount_eq_length (client : DocDBClient) (cfg : Config)
    (info : ClusterInfo) (h : getClusterInfo client cfg = .ok info) :
    info.ReaderCount = info.ReaderInstances.length := by
  unfold getClusterInfo at h
  split at h
  · cases h
  · cases h
  · injection h with h
    subst h
    exact getClusterInfo.foldl_readerCount client _ _ rfl

/-! ## Cooldown threshold -/

/-- For a cooldown between 0 and 153722867 minutes (about 292 years) the `int64`
duration does not wrap and the threshold is `now` minus the cooldown. -/
theorem cooldownThreshold_eq (cfg : Config) (now : Int) (h0 : 0 ≤ cfg.cooldownMinutes)
    (h1 : cfg.cooldownMinutes ≤ 153722867) :
    cooldownThreshold cfg now = now - cfg.cooldownMinutes * minute := by
  unfold cooldownThreshold wrapInt64 minute
  omega

/-! ## Actuator: what `scaleIn` sends -/

/-- When a reader is already `deleting`, `scaleIn` sends nothing and returns nil. -/
theorem scaleIn_of_deleting (client : DocDBClient) (cfg : Config)
    (sortSlice : List ReaderInstance → List ReaderInstance) (now : Int)
    (clusterInfo : ClusterInfo)
    (hdel : ∃ r ∈ clusterInfo.ReaderInstances, r.Status = "deleting") :
    scaleIn client cfg sortSlice now clusterInfo = { calls := [], err := none } := by
  have hany : clusterInfo.ReaderInstances.any
      (fun inst => decide (inst.Status = "deleting")) = true := by
    obtain ⟨r, hr, hs⟩ := hdel
    exact List.any_eq_true.mpr ⟨r, hr, by simpa using hs⟩
  unfold scaleIn
  rw [if_pos hany]

/-- A delete request sent by `scaleIn` is for the first eligible reader of the
sorted slice, and it is the only request sent. -/
theorem scaleIn_delete_found (client : DocDBClient) (cfg : Config)
    (sortSlice : List ReaderInstance → List ReaderInstance) (now : Int)
    (clusterInfo : ClusterInfo) (id : String)
    (h : ApiCall.DeleteDBInstance id ∈ (scaleIn client cfg sortSlice now clusterInfo).calls) :
    ∃ r, (sortSlice clusterInfo.ReaderInstances).find?
        (fun r => decide (eligible cfg now r)) = some r ∧ r.Identifier = id ∧
      (scaleIn client cfg sortSlice now clusterInfo).calls = [.DeleteDBInstance id] := by
  unfold scaleIn at h ⊢
  split_ifs at h ⊢
  · simp at h
  · simp at h
  · generalize (sortSlice clusterInfo.ReaderInstances).find?
      (fun r => decide (eligible cfg now r)) = found at h ⊢
    cases found with
    | none => simp at h
    | some r =>
      dsimp only at h ⊢
      split at h <;>
        · simp only [List.mem_singleton, ApiCall.DeleteDBInstance.injEq] at h
          refine ⟨r, rfl, h.symm, ?_⟩
          simp [h]

/-- When no gate fires and the sorted slice has an eligible reader, `scaleIn`
sends exactly one delete request, for the first eligible reader of the sorted
slice. -/
theorem scaleIn_calls_of_found (client : DocDBClient) (cfg : Config)
    (sortSlice : List ReaderInstance → List ReaderInstance) (now : Int)
    (clusterInfo : ClusterInfo) (r : ReaderInstance)
    (hnodel : ∀ x ∈ clusterInfo.ReaderInstances, x.Status ≠ "deleting")
    (hmin : cfg.minReadReplicas < (clusterInfo.ReaderInstances.length : Int))
    (hfind : (sortSlice clusterInfo.ReaderInstances).find?
      (fun r => decide (eligible cfg now r)) = some r) :
    (scaleIn client cfg sortSlice now clusterInfo).calls = [.DeleteDBInstance r.Identifier] := by
  have hany : ¬ clusterInfo.ReaderInstances.any
      (fun inst => decide (inst.Status = "deleting")) = true := by
    intro h
    obtain ⟨x, hx, hs⟩ := List.any_eq_true.mp h
    exact hnodel x hx (by simpa using hs)
  unfold scaleIn
  rw [if_neg hany, if_neg (not_le.mpr hmin), hfind]
  dsimp only
  split <;> rfl

/-! ## Insertion sort keeps input order among equal creation times -/

theorem insertionSort.find_bubble (cfg : Config) (now : Int) (x : ReaderInstance)
    (prefixRev : List ReaderInstance)
    (h : prefixRev.Pairwise (fun a b => ¬ a.CreateTime < b.CreateTime)) :
    (insertionSort.bubble x prefixRev).reverse.find? (fun r => decide (eligible cfg now r)) =
      oldestEligibleFirst.pick cfg now
        (prefixRev.reverse.find? (fun r => decide (eligible cfg now r))) x := by
  induction prefixRev with
  | nil =>
    by_cases hx : eligible cfg now x <;>
      simp [insertionSort.bubble, oldestEligibleFirst.pick, hx]
  | cons y ys ih =>
    rw [List.pairwise_cons] at h
    unfold insertionSort.bubble
    split_ifs with hlt
    · rw [List.reverse_cons, List.find?_append, ih h.2, List.reverse_cons, List.find?_append]
      cases hfind : ys.reverse.find? (fun r => decide (eligible cfg now r)) with
      | none =>
        by_cases hx : eligible cfg now x <;> by_cases hy : eligible cfg now y <;>
          simp [oldestEligibleFirst.pick, hx, hy, hlt]
      | some b =>
        by_cases hx : eligible cfg now x
        · simp [oldestEligibleFirst.pick, hx]
          split_ifs <;> simp
        · simp [oldestEligibleFirst.pick, hx]
    · rw [List.reverse_cons x, List.find?_append]
      cases hfind : (y :: ys).reverse.find? (fun r => decide (eligible cfg now r)) with
      | none =>
        by_cases hx : eligible cfg now x <;> simp [oldestEligibleFirst.pick, hx]
      | some b =>
        have hb : b ∈ y :: ys := List.mem_reverse.mp (List.mem_of_find?_eq_some hfind)
        have hnot : ¬ x.CreateTime < b.CreateTime := by
          rcases List.mem_cons.mp hb with rfl | hb
          · exact hlt
          · have := h.1 b hb
            omega
        by_cases hx : eligible cfg now x <;> simp [oldestEligibleFirst.pick, hx, hnot]

theorem insertionSort.find_foldl (cfg : Config) (now : Int) (data acc : List ReaderInstance)
    (h : acc.Pairwise (fun a b => ¬ a.CreateTime < b.CreateTime)) :
    (data.foldl (fun prefixRev x => insertionSort.bubble x prefixRev) acc).reverse.find?
        (fun r => decide (eligible cfg now r)) =
      data.foldl (oldestEligibleFirst.pick cfg now)
        (acc.reverse.find? (fun r => decide (eligible cfg now r))) := by
  induction data generalizing acc with
  | nil => rfl
  | cons x xs ih =>
    simp only [List.foldl_cons]
    rw [ih _ (insertionSort.bubble_sorted x acc h), insertionSort.find_bubble cfg now x acc h]

/-- The first eligible reader after insertion sort is the eligible reader with the
earliest creation time that comes first in input order. -/
theorem insertionSort_find_eligible (cfg : Config) (now : Int) (data : List ReaderInstance) :
    (insertionSort data).find? (fun r => decide (eligible cfg now r)) =
      oldestEligibleFirst cfg now data := by
  unfold insertionSort oldestEligibleFirst
  exact insertionSort.find_foldl cfg now data [] List.Pairwise.nil

/-- In a sorted rearrangement of the readers, the first eligible reader is an
eligible reader of the topology and no eligible reader was created earlier. -/
theorem find_eligible_sorted_oldest (cfg : Config) (now : Int)
    (sortSlice : List ReaderInstance → List ReaderInstance) (hspec : SortSliceSpec sortSlice)
    (readers : List ReaderInstance) (r : ReaderInstance)
    (hfind : (sortSlice readers).find? (fun r => decide (eligible cfg now r)) = some r) :
    r ∈ readers ∧ eligible cfg now r ∧
      ∀ other ∈ readers, eligible cfg now other → r.CreateTime ≤ other.CreateTime := by
  obtain ⟨hperm, hsorted⟩ := hspec readers
  have hmem : r ∈ readers := hperm.mem_iff.mp (List.mem_of_find?_eq_some hfind)
  have helig : eligible cfg now r := by simpa using List.find?_some hfind
  refine ⟨hmem, helig, ?_⟩
  intro other hother hoe
  obtain ⟨_, as, bs, hsplit, hbefore⟩ := List.find?_eq_some.mp hfind
  rw [hsplit] at hsorted
  have hin : other ∈ as ++ r :: bs := hsplit ▸ hperm.mem_iff.mpr hother
  rcases List.mem_append.mp hin with ha | hb
  · have := hbefore other ha
    simp [hoe] at this
  · rcases List.mem_cons.mp hb with rfl | hb
    · exact le_refl _
    · have h2 := (List.pairwise_append.mp hsorted).2.1
      have := (List.pairwise_cons.mp h2).1 other hb
      omega

/-- The engine returns `scale_in` only above the replica floor. -/
theorem readerCount_gt_min_of_scaleIn (cfg : Config) (clusterInfo : ClusterInfo)
    (metrics : Metrics)
    (h : (makeScalingDecision cfg clusterInfo metrics).Action = "scale_in") :
    cfg.minReadReplicas < clusterInfo.ReaderCount := by
  unfold makeScalingDecision at h
  split_ifs at h with h1 h2 h3
  · simp at h
  · simp at h
  · exact h3.2
  · simp at h

/-! ## `sort.Slice` since Go 1.19: at most 12 elements -/

theorem insertionSort_func_all (data : List ReaderInstance) :
    insertionSort_func data 0 data.length = insertionSort data := by
  simp [insertionSort_func]

/-- On a slice of at most 12 elements `pdqsort_func` returns in its first pass,
and `sort.Slice` is insertion sort. -/
theorem Slice_eq_insertionSort (data : List ReaderInstance) (h : data.length ≤ 12) :
    pdqsort_func (data.length + 1) data 0 data.length (bitsLen data.length) true true =
        some (insertionSort data) ∧
      Slice data = insertionSort data := by
  have hrun : pdqsort_func (data.length + 1) data 0 data.length (bitsLen data.length)
      true true = some (insertionSort data) := by
    rw [pdqsort_func, if_pos (by simpa using h), insertionSort_func_all]
  refine ⟨hrun, ?_⟩
  unfold Slice
  rw [hrun]

/-- When no gate fires and some reader is eligible, the sorted slice has a first
eligible reader. -/
theorem find_eligible_of_perm (cfg : Config) (now : Int) (sorted readers : List ReaderInstance)
    (hperm : sorted.Perm readers) (helig : ∃ r ∈ readers, eligible cfg now r) :
    ∃ r, sorted.find? (fun r => decide (eligible cfg now r)) = some r := by
  obtain ⟨x, hx, hxe⟩ := helig
  apply Option.isSome_iff_exists.mp
  rw [List.find?_isSome]
  exact ⟨x, hperm.mem_iff.mpr hx, by simpa using hxe⟩

/-! ## Actuator: properties -/

/-- C7 (as stated, refuted): with a reader in status `deleting`, a `scale_out`
decision (writer CPU 85) and a control plane that rejects the create call, the
actuator reports an error, not success. -/
theorem scaleOut_fails_while_reader_deleting :
    (∃ r ∈ deletingTopology.ReaderInstances, r.Status = "deleting") ∧
      (executeScalingAction failingCreateClient (defaultConfig "docdb") insertionSort exampleNow
        (makeScalingDecision (defaultConfig "docdb") deletingTopology
          ⟨.fin 85, .fin 20, .fin 0, 0⟩) deletingTopology).err =
        some "failed to create read replica: Throttling: Rate exceeded" := by
  refine ⟨⟨⟨"r1", 10 * minute, "deleting"⟩, by simp [deletingTopology], rfl⟩, ?_⟩
  have h : (70 : ℚ) ≤ 85 := by norm_num
  simp [executeScalingAction, makeScalingDecision, defaultConfig, deletingTopology,
    Float64.ge, Float64.le, h, scaleOut, failingCreateClient]

/-- C7 (amended): when some reader of the topology has status `deleting`, the
actuator sends no delete-instance request whatever the decision is; for every
decision other than `scale_out` it sends nothing at all and reports success; for
a `scale_out` decision it sends exactly the create-instance request (identifier
`<cluster>-reader-<unix time>`, the configured instance class, engine `docdb`)
and reports that call's outcome: success if the call succeeds, the error
`failed to create read replica: <text>` if it fails. -/
theorem no_delete_while_reader_deleting (client : DocDBClient) (cfg : Config)
    (sortSlice : List ReaderInstance → List ReaderInstance) (now : Int)
    (decision : ScalingDecision) (clusterInfo : ClusterInfo)
    (hdel : ∃ r ∈ clusterInfo.ReaderInstances, r.Status = "deleting") :
    (∀ id, ApiCall.DeleteDBInstance id ∉
        (executeScalingAction client cfg sortSlice now decision clusterInfo).calls) ∧
      (decision.Action ≠ "scale_out" →
        executeScalingAction client cfg sortSlice now decision clusterInfo =
          { calls := [], err := none }) ∧
      (decision.Action = "scale_out" →
        executeScalingAction client cfg sortSlice now decision clusterInfo =
          { calls :=
              [.CreateDBInstance
                { DBInstanceIdentifier :=
                    cfg.clusterIdentifier ++ "-reader-" ++ toString (now / 1000000000)
                  DBClusterIdentifier := cfg.clusterIdentifier
                  DBInstanceClass := cfg.instanceClass
                  Engine := "docdb" }]
            err :=
              (client.CreateDBInstance
                { DBInstanceIdentifier :=
                    cfg.clusterIdentifier ++ "-reader-" ++ toString (now / 1000000000)
                  DBClusterIdentifier := cfg.clusterIdentifier
                  DBInstanceClass := cfg.instanceClass
                  Engine := "docdb" }).map
                fun err => "failed to create read replica: " ++ err }) := by
  have hin := scaleIn_of_deleting client cfg sortSlice now clusterInfo hdel
  refine ⟨?_, ?_, ?_⟩
  · intro id
    unfold executeScalingAction
    split_ifs
    · unfold scaleOut
      dsimp only
      split <;> simp
    · simp [hin]
    · simp
  · intro hne
    unfold executeScalingAction
    rw [if_neg hne]
    split_ifs
    · exact hin
    · rfl
  · intro hout
    unfold executeScalingAction
    rw [if_pos hout]
    unfold scaleOut
    dsimp only
    split <;> rename_i hcreate <;> rw [hcreate] <;> rfl

/-- Witness for C7 (amended): on a topology whose first reader is being deleted,
a `scale_in` decision (writer CPU 20, reader CPU 10) sends nothing and succeeds,
and a `scale_out` decision (writer CPU 85) against a control plane that rejects
the create call sends that one create request and reports its error. -/
theorem no_delete_while_reader_deleting_witness :
    (∃ r ∈ deletingTopology.ReaderInstances, r.Status = "deleting") ∧
      executeScalingAction okClient (defaultConfig "docdb") insertionSort exampleNow
        (makeScalingDecision (defaultConfig "docdb") deletingTopology
          ⟨.fin 20, .fin 10, .fin 0, 0⟩) deletingTopology = { calls := [], err := none } ∧
      executeScalingAction failingCreateClient (defaultConfig "docdb") insertionSort exampleNow
        (makeScalingDecision (defaultConfig "docdb") deletingTopology
          ⟨.fin 85, .fin 20, .fin 0, 0⟩) deletingTopology =
        { calls :=
            [.CreateDBInstance
              { DBInstanceIdentifier := "docdb" ++ "-reader-" ++ toString (exampleNow / 1000000000)
                DBClusterIdentifier := "docdb"
                DBInstanceClass := "db.r6g.large"
                Engine := "docdb" }]
          err := some "failed to create read replica: Throttling: Rate exceeded" } :=
  ⟨⟨⟨"r1", 10 * minute, "deleting"⟩, by simp [deletingTopology], rfl⟩,
    (no_delete_while_reader_deleting okClient (defaultConfig "docdb") insertionSort exampleNow
      (makeScalingDecision (defaultConfig "docdb") deletingTopology
        ⟨.fin 20, .fin 10, .fin 0, 0⟩) deletingTopology
      ⟨⟨"r1", 10 * minute, "deleting"⟩, by simp [deletingTopology], rfl⟩).2.1
      (by decide),
    (no_delete_while_reader_deleting failingCreateClient (defaultConfig "docdb") insertionSort
      exampleNow
      (makeScalingDecision (defaultConfig "docdb") deletingTopology
        ⟨.fin 85, .fin 20, .fin 0, 0⟩) deletingTopology
      ⟨⟨"r1", 10 * minute, "deleting"⟩, by simp [deletingTopology], rfl⟩).2.2
      (by decide)⟩

/-- Up to Go 1.18 `sort.Slice` ran a gap-6 pass before insertion sort on short
slices.  With that sort (which meets the contract of `sort.Slice`), on seven
eligible readers of which `r1` to `r6` share the earliest creation time, `scaleIn`
deletes `r6`, while the first of them in input order is `r1`. -/
theorem shellInsertionSort_tie_not_input_order :
    SortSliceSpec shellInsertionSort ∧
      (scaleIn okClient (defaultConfig "docdb") shellInsertionSort exampleNow
        ⟨7, 1, sevenReaders⟩).calls = [.DeleteDBInstance "r6"] ∧
      oldestEligibleFirst (defaultConfig "docdb") exampleNow sevenReaders =
        some { Identifier := "r1", CreateTime := 3 * minute, Status := "available" } :=
  ⟨shellInsertionSort_spec, by decide, by decide⟩

/-- C8 (as stated, refuted): with `sort.Slice` as it is since Go 1.19, on thirteen
eligible readers of which `r1` and `r2` share the earliest creation time,
`pdqsort_func` returns (without running out of passes) a sorted slice that starts
with `r2`, and `scaleIn` deletes `r2`, while the first of the two in input order is
`r1`. -/
theorem scaleIn_tie_not_input_order_thirteen :
    (pdqsort_func 14 thirteenReaders 0 13 (bitsLen 13) true true).map
        (List.map fun r => r.Identifier) =
      some ["r2", "r1", "r6", "r3", "r4", "r5", "r0", "r7", "r8", "r9", "r10", "r11", "r12"] ∧
      scaleIn okClient (defaultConfig "docdb") Slice exampleNow ⟨13, 1, thirteenReaders⟩ =
        { calls := [.DeleteDBInstance "r2"], err := none } ∧
      oldestEligibleFirst (defaultConfig "docdb") exampleNow thirteenReaders =
        some { Identifier := "r1", CreateTime := 10 * minute, Status := "available" } := by
  refine ⟨by decide, by decide, by decide⟩

/-- C8 (amended): for every sort that meets the contract of `sort.Slice`, a delete
request of `scaleIn` is for an eligible reader with the earliest creation time
among the eligible readers; and when no reader is `deleting`, there are more
readers than `minReadReplicas` and some reader is eligible, `scaleIn` sends exactly
one request, the delete of such a reader.  With `sort.Slice` as it is since Go 1.19
and at most 12 readers, the reader deleted is the first in input order among the
eligible readers sharing the earliest creation time.  Eligible is `available`
and created before the threshold the code computes, which is `now` minus the
cooldown when the cooldown is between 0 and 153722867 minutes. -/
theorem scaleIn_selects_oldest_eligible (client : DocDBClient) (cfg : Config) (now : Int)
    (clusterInfo : ClusterInfo) :
    (∀ sortSlice, SortSliceSpec sortSlice → ∀ id,
      ApiCall.DeleteDBInstance id ∈ (scaleIn client cfg sortSlice now clusterInfo).calls →
      ∃ r ∈ clusterInfo.ReaderInstances, r.Identifier = id ∧ eligible cfg now r ∧
        ∀ other ∈ clusterInfo.ReaderInstances, eligible cfg now other →
          r.CreateTime ≤ other.CreateTime) ∧
    (∀ sortSlice, SortSliceSpec sortSlice →
      (∀ r ∈ clusterInfo.ReaderInstances, r.Status ≠ "deleting") →
      cfg.minReadReplicas < (clusterInfo.ReaderInstances.length : Int) →
      (∃ r ∈ clusterInfo.ReaderInstances, eligible cfg now r) →
      ∃ r ∈ clusterInfo.ReaderInstances, eligible cfg now r ∧
        (∀ other ∈ clusterInfo.ReaderInstances, eligible cfg now other →
          r.CreateTime ≤ other.CreateTime) ∧
        (scaleIn client cfg sortSlice now clusterInfo).calls =
          [.DeleteDBInstance r.Identifier]) ∧
    (clusterInfo.ReaderInstances.length ≤ 12 → ∀ id,
      ApiCall.DeleteDBInstance id ∈ (scaleIn client cfg Slice now clusterInfo).calls →
      ∃ r, oldestEligibleFirst cfg now clusterInfo.ReaderInstances = some r ∧
        r.Identifier = id) ∧
    (clusterInfo.ReaderInstances.length ≤ 12 →
      (∀ r ∈ clusterInfo.ReaderInstances, r.Status ≠ "deleting") →
      cfg.minReadReplicas < (clusterInfo.ReaderInstances.length : Int) →
      (∃ r ∈ clusterInfo.ReaderInstances, eligible cfg now r) →
      ∃ r, oldestEligibleFirst cfg now clusterInfo.ReaderInstances = some r ∧
        (scaleIn client cfg Slice now clusterInfo).calls =
          [.DeleteDBInstance r.Identifier]) ∧
    (0 ≤ cfg.cooldownMinutes → cfg.cooldownMinutes ≤ 153722867 → ∀ r,
      (eligible cfg now r ↔
        r.CreateTime < now - cfg.cooldownMinutes * minute ∧ r.Status = "available")) := by
  refine ⟨?_, ?_, ?_, ?_, ?_⟩
  · intro sortSlice hspec id hcall
    obtain ⟨r, hfind, hid, _⟩ := scaleIn_delete_found client cfg sortSlice now clusterInfo id hcall
    obtain ⟨hmem, helig, hmin⟩ :=
      find_eligible_sorted_oldest cfg now sortSlice hspec clusterInfo.ReaderInstances r hfind
    exact ⟨r, hmem, hid, helig, hmin⟩
  · intro sortSlice hspec hnodel hmin helig
    obtain ⟨r, hfind⟩ := find_eligible_of_perm cfg now _ _
      (hspec clusterInfo.ReaderInstances).1 helig
    obtain ⟨hmem, hre, holdest⟩ :=
      find_eligible_sorted_oldest cfg now sortSlice hspec clusterInfo.ReaderInstances r hfind
    exact ⟨r, hmem, hre, holdest,
      scaleIn_calls_of_found client cfg sortSlice now clusterInfo r hnodel hmin hfind⟩
  · intro hlen id hcall
    obtain ⟨r, hfind, hid, _⟩ := scaleIn_delete_found client cfg Slice now clusterInfo id hcall
    rw [(Slice_eq_insertionSort _ hlen).2, insertionSort_find_eligible] at hfind
    exact ⟨r, hfind, hid⟩
  · intro hlen hnodel hmin helig
    obtain ⟨r, hfind⟩ := find_eligible_of_perm cfg now _ _
      (insertionSort_spec clusterInfo.ReaderInstances).1 helig
    have hfind2 : (Slice clusterInfo.ReaderInstances).find?
        (fun r => decide (eligible cfg now r)) = some r := by
      rw [(Slice_eq_insertionSort _ hlen).2, hfind]
    rw [insertionSort_find_eligible] at hfind
    exact ⟨r, hfind,
      scaleIn_calls_of_found client cfg Slice now clusterInfo r hnodel hmin hfind2⟩
  · intro h0 h1 r
    unfold eligible
    rw [cooldownThreshold_eq cfg now h0 h1]

/-- Witness for C8 (amended): three eligible readers, `r1` and `r2` sharing the
earliest creation time, one replica at least, no reader `deleting`; `scaleIn`
with `sort.Slice` sends the delete of `r1` and nothing else. -/
theorem scaleIn_selects_oldest_eligible_witness :
    scaleIn okClient (defaultConfig "docdb") Slice exampleNow ⟨3, 1, tiedReaders⟩ =
        { calls := [.DeleteDBInstance "r1"], err := none } ∧
      (∃ r ∈ tiedReaders, eligible (defaultConfig "docdb") exampleNow r ∧
        (∀ other ∈ tiedReaders, eligible (defaultConfig "docdb") exampleNow other →
          r.CreateTime ≤ other.CreateTime) ∧
        (scaleIn okClient (defaultConfig "docdb") insertionSort exampleNow
          ⟨3, 1, tiedReaders⟩).calls = [.DeleteDBInstance r.Identifier]) ∧
      (∃ r, oldestEligibleFirst (defaultConfig "docdb") exampleNow tiedReaders = some r ∧
        (scaleIn okClient (defaultConfig "docdb") Slice exampleNow
          ⟨3, 1, tiedReaders⟩).calls = [.DeleteDBInstance r.Identifier]) ∧
      oldestEligibleFirst (defaultConfig "docdb") exampleNow tiedReaders =
        some { Identifier := "r1", CreateTime := 3 * minute, Status := "available" } :=
  ⟨by decide,
    (scaleIn_selects_oldest_eligible okClient (defaultConfig "docdb") exampleNow
      ⟨3, 1, tiedReaders⟩).2.1 insertionSort insertionSort_spec (by decide) (by decide)
      (by decide),
    (scaleIn_selects_oldest_eligible okClient (defaultConfig "docdb") exampleNow
      ⟨3, 1, tiedReaders⟩).2.2.2.1 (by decide) (by decide) (by decide) (by decide),
    by decide⟩

/-- The reader `scaleIn` deletes passes the test the code applies: `scaleIn` sends
a delete request only for a reader of the topology that is `available` and was
created strictly before the threshold the code computes (`cooldownThreshold`);
and when no reader of the topology passes that test it sends no request and
returns nil. -/
theorem scaleIn_deletes_only_eligible (client : DocDBClient) (cfg : Config)
    (sortSlice : List ReaderInstance → List ReaderInstance) (now : Int)
    (clusterInfo : ClusterInfo) (hspec : SortSliceSpec sortSlice) :
    (∀ id,
      ApiCall.DeleteDBInstance id ∈ (scaleIn client cfg sortSlice now clusterInfo).calls →
      ∃ r ∈ clusterInfo.ReaderInstances, r.Identifier = id ∧ r.Status = "available" ∧
        r.CreateTime < cooldownThreshold cfg now) ∧
    ((∀ r ∈ clusterInfo.ReaderInstances,
        ¬ (r.Status = "available" ∧ r.CreateTime < cooldownThreshold cfg now)) →
      scaleIn client cfg sortSlice now clusterInfo = { calls := [], err := none }) := by
  constructor
  · intro id hcall
    obtain ⟨r, hfind, hid, _⟩ := scaleIn_delete_found client cfg sortSlice now clusterInfo id hcall
    obtain ⟨hmem, helig, _⟩ :=
      find_eligible_sorted_oldest cfg now sortSlice hspec clusterInfo.ReaderInstances r hfind
    exact ⟨r, hmem, hid, helig.2, helig.1⟩
  · intro hnone
    have hfind : (sortSlice clusterInfo.ReaderInstances).find?
        (fun r => decide (eligible cfg now r)) = none := by
      rw [List.find?_eq_none]
      intro x hx
      have hx2 := (hspec clusterInfo.ReaderInstances).1.mem_iff.mp hx
      have := hnone x hx2
      simp only [eligible, decide_eq_true_eq]
      tauto
    unfold scaleIn
    rw [hfind]
    split_ifs <;> rfl

/-- Example: at minute 100 with a 15-minute cooldown, the only available
reader was created 5 minutes ago and the other reader is `creating`; `scaleIn`
sends nothing and returns nil. -/
theorem scaleIn_deletes_only_eligible_witness :
    SortSliceSpec insertionSort ∧
      cooldownThreshold (defaultConfig "docdb") exampleNow = exampleNow - 15 * minute ∧
      (∀ r ∈ cooldownTopology.ReaderInstances,
        ¬ (r.Status = "available" ∧
          r.CreateTime < cooldownThreshold (defaultConfig "docdb") exampleNow)) ∧
      scaleIn okClient (defaultConfig "docdb") insertionSort exampleNow cooldownTopology =
        { calls := [], err := none } :=
  ⟨insertionSort_spec, by decide, by decide,
    (scaleIn_deletes_only_eligible okClient (defaultConfig "docdb") insertionSort exampleNow
      cooldownTopology insertionSort_spec).2 (by decide)⟩

/-- While the cooldown is between 0 and 153722867 minutes, `scaleIn` deletes only
a reader that is `available` and was created strictly before `now` minus the
cooldown; and when no reader is both, it sends no request and returns nil. -/
theorem scaleIn_deletes_only_outside_cooldown (client : DocDBClient) (cfg : Config)
    (sortSlice : List ReaderInstance → List ReaderInstance) (now : Int)
    (clusterInfo : ClusterInfo) (hspec : SortSliceSpec sortSlice)
    (h0 : 0 ≤ cfg.cooldownMinutes) (h1 : cfg.cooldownMinutes ≤ 153722867) :
    (∀ id,
      ApiCall.DeleteDBInstance id ∈ (scaleIn client cfg sortSlice now clusterInfo).calls →
      ∃ r ∈ clusterInfo.ReaderInstances, r.Identifier = id ∧ r.Status = "available" ∧
        r.CreateTime < now - cfg.cooldownMinutes * minute) ∧
    ((∀ r ∈ clusterInfo.ReaderInstances,
        ¬ (r.Status = "available" ∧ r.CreateTime < now - cfg.cooldownMinutes * minute)) →
      scaleIn client cfg sortSlice now clusterInfo = { calls := [], err := none }) := by
  have h := scaleIn_deletes_only_eligible client cfg sortSlice now clusterInfo hspec
  rw [cooldownThreshold_eq cfg now h0 h1] at h
  exact h

/-- Example for `scaleIn_deletes_only_outside_cooldown`: the default cooldown of 15
minutes, the only available reader created 5 minutes ago. -/
theorem scaleIn_deletes_only_outside_cooldown_example :
    scaleIn okClient (defaultConfig "docdb") insertionSort exampleNow cooldownTopology =
      { calls := [], err := none } :=
  (scaleIn_deletes_only_outside_cooldown okClient (defaultConfig "docdb") insertionSort
    exampleNow cooldownTopology insertionSort_spec (by decide) (by decide)).2 (by decide)

/-- C9 (the code against the claim): with `COOLDOWN_MINUTES=153722868` the
duration `-time.Duration(cooldownMinutes) * time.Minute` wraps around `int64` to
a positive value, the threshold lies about 292 years after `now`, and `scaleIn`
deletes reader `r1`, which was created one minute ago, well inside the cooldown
window (`now` minus the cooldown is far before its creation time).  With the
default cooldown of 15 minutes the same topology gives no deletion. -/
theorem scaleIn_deletes_inside_cooldown_on_wrap :
    exampleNow - longCooldownConfig.cooldownMinutes * minute < 99 * minute ∧
      cooldownThreshold longCooldownConfig exampleNow = exampleNow + 9223371993709551616 ∧
      scaleIn okClient longCooldownConfig Slice exampleNow freshTopology =
        { calls := [.DeleteDBInstance "r1"], err := none } ∧
      scaleIn okClient (defaultConfig "docdb") Slice exampleNow freshTopology =
        { calls := [], err := none } := by
  refine ⟨by decide, by decide, by decide, by decide⟩

/-- C10: for a topology returned by the collector on which the engine decides
`scale_in`, if no reader is `deleting` and some reader is eligible (`available`
and created strictly before the cooldown threshold), the actuator sends exactly
one request, a delete-instance for an eligible reader of the topology. -/
theorem scaleIn_deletes_eligible_reader (client : DocDBClient) (cfg : Config)
    (sortSlice : List ReaderInstance → List ReaderInstance) (now : Int)
    (metrics : Metrics) (clusterInfo : ClusterInfo) (hspec : SortSliceSpec sortSlice)
    (hinfo : getClusterInfo client cfg = .ok clusterInfo)
    (hdec : (makeScalingDecision cfg clusterInfo metrics).Action = "scale_in")
    (hnodel : ∀ r ∈ clusterInfo.ReaderInstances, r.Status ≠ "deleting")
    (helig : ∃ r ∈ clusterInfo.ReaderInstances, eligible cfg now r) :
    ∃ r ∈ clusterInfo.ReaderInstances, eligible cfg now r ∧
      (executeScalingAction client cfg sortSlice now
        (makeScalingDecision cfg clusterInfo metrics) clusterInfo).calls =
        [.DeleteDBInstance r.Identifier] := by
  have hmin : cfg.minReadReplicas < (clusterInfo.ReaderInstances.length : Int) := by
    rw [← getClusterInfo_readerCount_eq_length client cfg clusterInfo hinfo]
    exact readerCount_gt_min_of_scaleIn cfg clusterInfo metrics hdec
  have hsome : ((sortSlice clusterInfo.ReaderInstances).find?
      (fun r => decide (eligible cfg now r))).isSome = true := by
    obtain ⟨x, hx, hxe⟩ := helig
    rw [List.find?_isSome]
    exact ⟨x, (hspec clusterInfo.ReaderInstances).1.mem_iff.mpr hx, by simpa using hxe⟩
  obtain ⟨r, hfind⟩ := Option.isSome_iff_exists.mp hsome
  obtain ⟨hmem, hre, _⟩ :=
    find_eligible_sorted_oldest cfg now sortSlice hspec clusterInfo.ReaderInstances r hfind
  refine ⟨r, hmem, hre, ?_⟩
  unfold executeScalingAction
  rw [if_neg (by rw [hdec]; decide), if_pos hdec]
  exact scaleIn_calls_of_found client cfg sortSlice now clusterInfo r hnodel hmin hfind

/-- At writer CPU 20 and reader CPU 10 the engine decides `scale_in` on the
two-reader topology under the default policy. -/
theorem twoReaderTopology_scaleIn :
    (makeScalingDecision (defaultConfig "docdb") twoReaderTopology
      ⟨.fin 20, .fin 10, .fin 0, 0⟩).Action = "scale_in" := by
  have h : (10 : ℚ) ≤ 30 := by norm_num
  have h2 : (20 : ℚ) ≤ 30 := by norm_num
  have h3 : ¬ (70 : ℚ) ≤ 20 := by norm_num
  have h4 : ¬ (400 : ℚ) ≤ 0 := by norm_num
  simp [makeScalingDecision, defaultConfig, twoReaderTopology, Float64.ge, Float64.le,
    h, h2, h3, h4]

/-- Witness for C10: writer CPU 20, reader CPU 10, two readers, at least one
replica, cooldown 15 minutes; the reader created 20 minutes ago is deleted. -/
theorem scaleIn_deletes_eligible_reader_witness :
    getClusterInfo twoReaderClient (defaultConfig "docdb") = .ok twoReaderTopology ∧
      (executeScalingAction twoReaderClient (defaultConfig "docdb") insertionSort exampleNow
        (makeScalingDecision (defaultConfig "docdb") twoReaderTopology
          ⟨.fin 20, .fin 10, .fin 0, 0⟩) twoReaderTopology).calls =
        [.DeleteDBInstance "r-old"] ∧
      ∃ r ∈ twoReaderTopology.ReaderInstances, eligible (defaultConfig "docdb") exampleNow r ∧
        (executeScalingAction twoReaderClient (defaultConfig "docdb") insertionSort exampleNow
          (makeScalingDecision (defaultConfig "docdb") twoReaderTopology
            ⟨.fin 20, .fin 10, .fin 0, 0⟩) twoReaderTopology).calls =
          [.DeleteDBInstance r.Identifier] :=
  ⟨rfl,
    by rw [executeScalingAction, twoReaderTopology_scaleIn]; decide,
    scaleIn_deletes_eligible_reader twoReaderClient (defaultConfig "docdb") insertionSort
      exampleNow ⟨.fin 20, .fin 10, .fin 0, 0⟩ twoReaderTopology insertionSort_spec
      rfl twoReaderTopology_scaleIn (by decide) (by decide)⟩


/-! ## Control loop: lifecycle requests -/

theorem scaleOut_calls_length (client : DocDBClient) (cfg : Config) (now : Int) :
    (scaleOut client cfg now).calls.length = 1 := by
  unfold scaleOut
  dsimp only
  split <;> rfl

theorem scaleIn_calls_length (client : DocDBClient) (cfg : Config)
    (sortSlice : List ReaderInstance → List ReaderInstance) (now : Int)
    (clusterInfo : ClusterInfo) :
    (scaleIn client cfg sortSlice now clusterInfo).calls.length ≤ 1 := by
  unfold scaleIn
  split_ifs
  · simp
  · simp
  · split
    · simp
    · split <;> simp

/-- The actuator sends at most one lifecycle request, and none for a decision
that is neither `scale_out` nor `scale_in`. -/
theorem executeScalingAction_calls_length (client : DocDBClient) (cfg : Config)
    (sortSlice : List ReaderInstance → List ReaderInstance) (now : Int)
    (decision : ScalingDecision) (clusterInfo : ClusterInfo) :
    (executeScalingAction client cfg sortSlice now decision clusterInfo).calls.length ≤ 1 := by
  unfold executeScalingAction
  split_ifs
  · exact le_of_eq (scaleOut_calls_length client cfg now)
  · exact scaleIn_calls_length client cfg sortSlice now clusterInfo
  · simp

/-- C11: in every invocation of the control loop the number of create-instance
and delete-instance requests sent is at most one; it is zero when the decision
is `none` (and when the topology or the metrics fetch fails). -/
theorem handler_calls_at_most_one (client : DocDBClient) (cloudwatch : CloudWatchClient)
    (arith : Float64Arith) (cfg : Config)
    (sortSlice : List ReaderInstance → List ReaderInstance) (metricsNow actionNow : Int)
    (event : SchedulerEvent) :
    (handler client cloudwatch arith cfg sortSlice metricsNow actionNow event).calls.length ≤ 1 ∧
    (∀ clusterInfo metrics, getClusterInfo client cfg = .ok clusterInfo →
      getCurrentMetrics cloudwatch arith cfg metricsNow = .ok metrics →
      (makeScalingDecision cfg clusterInfo metrics).Action = "none" →
      (handler client cloudwatch arith cfg sortSlice metricsNow actionNow event).calls = []) ∧
    ((∀ clusterInfo, getClusterInfo client cfg ≠ .ok clusterInfo) ∨
      (∀ metrics, getCurrentMetrics cloudwatch arith cfg metricsNow ≠ .ok metrics) →
      (handler client cloudwatch arith cfg sortSlice metricsNow actionNow event).calls = []) := by
  refine ⟨?_, ?_, ?_⟩
  · unfold handler
    split
    · simp
    · split
      · simp
      · dsimp only
        split_ifs
        · split <;> exact executeScalingAction_calls_length _ _ _ _ _ _
        · simp
  · intro clusterInfo metrics hinfo hmetrics hnone
    unfold handler
    rw [hinfo, hmetrics]
    dsimp only
    rw [if_neg (by simp [hnone])]
  · intro h
    unfold handler
    split
    · rfl
    · rename_i clusterInfo hinfo
      split
      · rfl
      · rename_i metrics hmetrics
        rcases h with h | h
        · exact absurd hinfo (h clusterInfo)
        · exact absurd hmetrics (h metrics)

/-! ## Topology collector: which members become readers -/

theorem getClusterInfo.step_eq (client : DocDBClient) (info : ClusterInfo)
    (member : DBClusterMember) :
    getClusterInfo.step client info member =
      { ReaderCount := info.ReaderCount + ((describedReader client member).toList.length : Int)
        WriterCount := info.WriterCount + (if member.IsClusterWriter = some true then 1 else 0)
        ReaderInstances := info.ReaderInstances ++ (describedReader client member).toList } := by
  unfold getClusterInfo.step describedReader
  by_cases hw : member.IsClusterWriter = some true
  · simp [hw]
  · simp only [hw, if_false]
    cases client.DescribeDBInstances member.DBInstanceIdentifier with
    | error e => simp
    | ok l =>
      cases l with
      | nil => simp
      | cons inst t => cases hc : inst.InstanceCreateTime <;> simp [hc]

theorem getClusterInfo.foldl_eq (client : DocDBClient) (members : List DBClusterMember)
    (info : ClusterInfo) :
    members.foldl (getClusterInfo.step client) info =
      { ReaderCount := info.ReaderCount +
          ((members.filterMap (describedReader client)).length : Int)
        WriterCount := info.WriterCount +
          ((members.filter fun m => decide (m.IsClusterWriter = some true)).length : Int)
        ReaderInstances := info.ReaderInstances ++ members.filterMap (describedReader client) } := by
  induction members generalizing info with
  | nil => simp
  | cons m ms ih =>
    rw [List.foldl_cons, ih, getClusterInfo.step_eq]
    cases hd : describedReader client m <;> by_cases hw : m.IsClusterWriter = some true <;>
      simp [List.filterMap_cons, List.filter_cons, hd, hw] <;> omega

/-- C12 (as stated, refuted): for a cluster of one writer and one reader whose
describe-instance lookup fails, the collector reports no reader at all, although
the cluster has one non-writer member. -/
theorem getClusterInfo_drops_failed_lookup :
    getClusterInfo lostReaderClient (defaultConfig "docdb") =
        .ok { ReaderCount := 0, WriterCount := 1, ReaderInstances := [] } ∧
      (nonWriterMembers
        { DBClusterMembers :=
          [{ IsClusterWriter := some true, DBInstanceIdentifier := "writer" },
           { IsClusterWriter := some false, DBInstanceIdentifier := "r1" }] }).length = 1 :=
  ⟨rfl, by decide⟩

/-- C12 (amended): a non-writer member whose describe-instance lookup fails (or
returns no instance, or an instance without a creation time) is skipped by the
collector: it is neither counted nor listed.  The reported readers are, in
member order, the non-writer members whose lookup returned an instance with a
creation time, and `ReaderCount` is their number, which is at most the number of
non-writer members. -/
theorem getClusterInfo_lists_described_readers (client : DocDBClient) (cfg : Config)
    (cluster : DBCluster) (rest : List DBCluster)
    (hcluster : client.DescribeDBClusters cfg.clusterIdentifier = .ok (cluster :: rest)) :
    ∃ info, getClusterInfo client cfg = .ok info ∧
      info.ReaderInstances = cluster.DBClusterMembers.filterMap (describedReader client) ∧
      info.ReaderCount =
        ((cluster.DBClusterMembers.filterMap (describedReader client)).length : Int) ∧
      info.ReaderCount ≤ ((nonWriterMembers cluster).length : Int) ∧
      ∀ member ∈ cluster.DBClusterMembers, ∀ err,
        client.DescribeDBInstances member.DBInstanceIdentifier = .error err →
        describedReader client member = none := by
  refine ⟨_, by unfold getClusterInfo; rw [hcluster], ?_, ?_, ?_, ?_⟩
  · rw [getClusterInfo.foldl_eq]; simp
  · rw [getClusterInfo.foldl_eq]; simp
  · rw [getClusterInfo.foldl_eq]
    simp only [zero_add, Nat.cast_le]
    unfold nonWriterMembers
    generalize cluster.DBClusterMembers = members
    induction members with
    | nil => simp
    | cons m ms ih =>
      by_cases hw : m.IsClusterWriter = some true
      · simpa [List.filterMap_cons, List.filter_cons, describedReader, hw] using ih
      · have hkeep : decide (m.IsClusterWriter ≠ some true) = true := by simpa using hw
        cases hd : describedReader client m
        · rw [List.filterMap_cons, hd, List.filter_cons, if_pos hkeep, List.length_cons]
          dsimp only
          omega
        · rw [List.filterMap_cons, hd, List.filter_cons, if_pos hkeep]
          simp only [List.length_cons]
          omega
  · intro member _ err herr
    unfold describedReader
    rw [herr]
    split_ifs <;> rfl

/-- Witness for C12 (amended): the cluster of one writer and one reader whose
lookup fails. -/
theorem getClusterInfo_lists_described_readers_witness :
    ∃ info, getClusterInfo lostReaderClient (defaultConfig "docdb") = .ok info ∧
      info.ReaderInstances = [] ∧ info.ReaderCount = 0 :=
  (getClusterInfo_lists_described_readers lostReaderClient (defaultConfig "docdb")
    { DBClusterMembers :=
      [{ IsClusterWriter := some true, DBInstanceIdentifier := "writer" },
       { IsClusterWriter := some false, DBInstanceIdentifier := "r1" }] } [] rfl).imp
    fun _ h => ⟨h.1, h.2.1, h.2.2.1⟩

/-! ## Metrics collector: properties -/

theorem getMetricValue.foldl_step (arith : Float64Arith) (datapoints : List Datapoint)
    (sum : Float64) :
    datapoints.foldl (getMetricValue.step arith) sum =
      (datapoints.filterMap fun dp => dp.Average).foldl arith.add sum := by
  induction datapoints generalizing sum with
  | nil => rfl
  | cons dp dps ih =>
    cases hd : dp.Average <;>
      simp [List.foldl_cons, List.filterMap_cons, getMetricValue.step, hd, ih]

/-- What `getMetricValue` returns on an answer of the monitoring service: 0 with
no error for an empty list of datapoints; otherwise, with no error, the sum of
the `Average` values that are present divided by the number of all datapoints
returned. -/
theorem getMetricValue_eq (cloudwatch : CloudWatchClient) (arith : Float64Arith)
    (cfg : Config) (metricName role : String) (startTime endTime : Int)
    (datapoints : List Datapoint)
    (hresp : cloudwatch.GetMetricStatistics
      (getMetricValue.input cfg metricName role startTime endTime) = .ok datapoints) :
    (datapoints = [] →
      getMetricValue cloudwatch arith cfg metricName role startTime endTime =
        .ok Float64.zero) ∧
    (datapoints ≠ [] →
      getMetricValue cloudwatch arith cfg metricName role startTime endTime =
        .ok (arith.div
          ((datapoints.filterMap fun dp => dp.Average).foldl arith.add Float64.zero)
          (arith.ofInt datapoints.length))) := by
  constructor
  · intro h
    unfold getMetricValue
    rw [hresp, h]
    rfl
  · intro h
    unfold getMetricValue
    rw [hresp]
    dsimp only
    rw [if_neg (by simpa using h), getMetricValue.foldl_step]

theorem exampleArith_foldl_add (values : List ℚ) (acc : ℚ) :
    (values.map Float64.fin).foldl exampleArith.add (.fin acc) = .fin (acc + values.sum) := by
  induction values generalizing acc with
  | nil => simp
  | cons q qs ih =>
    rw [List.map_cons, List.foldl_cons]
    show List.foldl exampleArith.add (.fin (acc + q)) (qs.map Float64.fin) = _
    rw [ih, List.sum_cons, add_assoc]

/-- With arithmetic that does not round, on a non-empty answer in which every
datapoint carries a finite `Average`, `getMetricValue` returns the arithmetic
mean of the datapoints' values. -/
theorem getMetricValue_exact_mean (cloudwatch : CloudWatchClient) (cfg : Config)
    (metricName role : String) (startTime endTime : Int) (values : List ℚ)
    (hne : values ≠ [])
    (hresp : cloudwatch.GetMetricStatistics
      (getMetricValue.input cfg metricName role startTime endTime) =
        .ok (values.map fun q => ⟨some (.fin q)⟩)) :
    getMetricValue cloudwatch exampleArith cfg metricName role startTime endTime =
      .ok (.fin (rationalMean values)) := by
  rw [(getMetricValue_eq cloudwatch exampleArith cfg metricName role startTime endTime _
    hresp).2 (by simpa using hne)]
  have hvals : ∀ vs : List ℚ,
      ((vs.map fun q => (⟨some (.fin q)⟩ : Datapoint)).filterMap fun dp => dp.Average) =
        vs.map Float64.fin := by
    intro vs
    induction vs with
    | nil => rfl
    | cons q qs ih =>
      simp only [List.map_cons, List.filterMap_cons, ih]
  have hlen : ((values.length : Int) : ℚ) ≠ 0 := by
    have : values.length ≠ 0 := fun h => hne (List.length_eq_zero.mp h)
    exact_mod_cast this
  rw [hvals values, List.length_map, Float64.zero, exampleArith_foldl_add, zero_add]
  show Except.ok (exampleArith.div (.fin values.sum) (.fin ((values.length : Int) : ℚ))) = _
  simp only [exampleArith, hlen, if_false, rationalMean]
  norm_cast

/-- Example for `getMetricValue_exact_mean`: three writer-CPU datapoints 40, 50 and
60 give their mean 50. -/
theorem getMetricValue_exact_mean_example :
    getMetricValue steadyCloudWatch exampleArith (defaultConfig "docdb") "CPUUtilization"
        "WRITER" (97 * minute) exampleNow = .ok (.fin (rationalMean [40, 50, 60])) ∧
      rationalMean [40, 50, 60] = 50 :=
  ⟨getMetricValue_exact_mean steadyCloudWatch (defaultConfig "docdb") "CPUUtilization"
      "WRITER" (97 * minute) exampleNow [40, 50, 60] (by simp) rfl,
    by simp [rationalMean]; norm_num⟩

/-- C13 (the code against the claim): the monitoring service answers with two
datapoints, one with `Average = 30` and one without an `Average`.  The
arithmetic mean of the datapoints' values (the single value 30) is 30, but
`getMetricValue` returns 15 with no error: it leaves the missing value out of the
sum and still divides by the number of all datapoints. -/
theorem getMetricValue_counts_missing_average :
    gapCloudWatch.GetMetricStatistics
        (getMetricValue.input (defaultConfig "docdb") "CPUUtilization" "READER"
          (97 * minute) exampleNow) = .ok [⟨some (.fin 30)⟩, ⟨none⟩] ∧
      getMetricValue gapCloudWatch exampleArith (defaultConfig "docdb") "CPUUtilization"
        "READER" (97 * minute) exampleNow = .ok (.fin 15) ∧
      rationalMean [30] = 30 := by
  refine ⟨rfl, ?_, by simp [rationalMean]⟩
  simp only [getMetricValue, gapCloudWatch, List.length_cons, List.length_nil,
    List.foldl_cons, List.foldl_nil, getMetricValue.step, Float64.zero]
  simp only [exampleArith]
  norm_num

/-- C14: `getCurrentMetrics` absorbs a failure of the reader-CPU fetch.  When the
writer-CPU and writer-connections fetches succeed it returns, with no error, the
snapshot of the fetched values, with `ReaderCPU = 0` if the reader-CPU fetch
failed; it returns an error exactly when the writer-CPU fetch or the
writer-connections fetch fails. -/
theorem getCurrentMetrics_absorbs_reader_failure (cloudwatch : CloudWatchClient)
    (arith : Float64Arith) (cfg : Config) (now : Int) :
    (∀ writerCPU writerConnections,
      getMetricValue cloudwatch arith cfg "CPUUtilization" "WRITER"
        (evaluationStart cfg now) now = .ok writerCPU →
      getMetricValue cloudwatch arith cfg "DatabaseConnections" "WRITER"
        (evaluationStart cfg now) now = .ok writerConnections →
      getCurrentMetrics cloudwatch arith cfg now =
        .ok { WriterCPU := writerCPU
              ReaderCPU :=
                match getMetricValue cloudwatch arith cfg "CPUUtilization" "READER"
                    (evaluationStart cfg now) now with
                | .error _ => Float64.zero
                | .ok readerCPU => readerCPU
              WriterConnections := writerConnections
              Timestamp := now }) ∧
    ((∃ err, getCurrentMetrics cloudwatch arith cfg now = .error err) ↔
      (∃ err, getMetricValue cloudwatch arith cfg "CPUUtilization" "WRITER"
        (evaluationStart cfg now) now = .error err) ∨
      (∃ err, getMetricValue cloudwatch arith cfg "DatabaseConnections" "WRITER"
        (evaluationStart cfg now) now = .error err)) := by
  constructor
  · intro writerCPU writerConnections hw hc
    unfold getCurrentMetrics
    simp only [hw, hc]
  · unfold getCurrentMetrics
    cases hw : getMetricValue cloudwatch arith cfg "CPUUtilization" "WRITER"
        (evaluationStart cfg now) now with
    | error e => simp [hw]
    | ok w =>
      cases hc : getMetricValue cloudwatch arith cfg "DatabaseConnections" "WRITER"
          (evaluationStart cfg now) now with
      | error e => simp [hw, hc]
      | ok c => simp [hw, hc]

/-- Values fetched from the monitoring service whose reader-role query fails. -/
theorem noReaderCloudWatch_values (startTime endTime : Int) :
    getMetricValue noReaderCloudWatch exampleArith (defaultConfig "docdb") "CPUUtilization"
        "WRITER" startTime endTime = .ok (.fin 20) ∧
      getMetricValue noReaderCloudWatch exampleArith (defaultConfig "docdb") "CPUUtilization"
        "READER" startTime endTime = .error "InternalServiceFault" ∧
      getMetricValue noReaderCloudWatch exampleArith (defaultConfig "docdb")
        "DatabaseConnections" "WRITER" startTime endTime = .ok (.fin 100) := by
  refine ⟨?_, rfl, ?_⟩ <;>
    simp [getMetricValue, noReaderCloudWatch, getMetricValue.input, getMetricValue.step,
      defaultConfig, Float64.zero, exampleArith]

/-- Values fetched from the steady monitoring service. -/
theorem steadyCloudWatch_values (startTime endTime : Int) :
    getMetricValue steadyCloudWatch exampleArith (defaultConfig "docdb") "CPUUtilization"
        "WRITER" startTime endTime = .ok (.fin 50) ∧
      getMetricValue steadyCloudWatch exampleArith (defaultConfig "docdb") "CPUUtilization"
        "READER" startTime endTime = .ok (.fin 40) ∧
      getMetricValue steadyCloudWatch exampleArith (defaultConfig "docdb")
        "DatabaseConnections" "WRITER" startTime endTime = .ok (.fin 100) := by
  refine ⟨?_, ?_, ?_⟩ <;>
    simp [getMetricValue, steadyCloudWatch, getMetricValue.input, getMetricValue.step,
      defaultConfig, Float64.zero, exampleArith] <;> norm_num

/-- With the monitoring service whose reader-role query fails, the snapshot is
writer CPU 20, reader CPU 0, 100 connections. -/
theorem noReaderCloudWatch_metrics :
    getCurrentMetrics noReaderCloudWatch exampleArith (defaultConfig "docdb") exampleNow =
      .ok ⟨.fin 20, .fin 0, .fin 100, exampleNow⟩ := by
  unfold getCurrentMetrics
  simp only [(noReaderCloudWatch_values _ _).1, (noReaderCloudWatch_values _ _).2.1,
    (noReaderCloudWatch_values _ _).2.2, Float64.zero]

/-- With the steady monitoring service the snapshot is writer CPU 50, reader CPU
40, 100 connections. -/
theorem steadyCloudWatch_metrics :
    getCurrentMetrics steadyCloudWatch exampleArith (defaultConfig "docdb") exampleNow =
      .ok ⟨.fin 50, .fin 40, .fin 100, exampleNow⟩ := by
  unfold getCurrentMetrics
  simp only [(steadyCloudWatch_values _ _).1, (steadyCloudWatch_values _ _).2.1,
    (steadyCloudWatch_values _ _).2.2]

/-- Witness for C14: the reader-CPU fetch fails, the other two succeed; the
snapshot has `ReaderCPU = 0` and no error is returned. -/
theorem getCurrentMetrics_absorbs_reader_failure_witness :
    getMetricValue noReaderCloudWatch exampleArith (defaultConfig "docdb") "CPUUtilization"
        "READER" (evaluationStart (defaultConfig "docdb") exampleNow) exampleNow =
        .error "InternalServiceFault" ∧
      getCurrentMetrics noReaderCloudWatch exampleArith (defaultConfig "docdb") exampleNow =
        .ok ⟨.fin 20, .fin 0, .fin 100, exampleNow⟩ := by
  refine ⟨rfl, ?_⟩
  rw [(getCurrentMetrics_absorbs_reader_failure noReaderCloudWatch exampleArith
    (defaultConfig "docdb") exampleNow).1 (.fin 20) (.fin 100)
    (noReaderCloudWatch_values _ _).1 (noReaderCloudWatch_values _ _).2.2]
  simp only [(noReaderCloudWatch_values _ _).2.1, Float64.zero]

/-! ## Control loop: the response -/

/-- For a decision `none` the actuator does nothing and succeeds, as the control
loop assumes when it skips the call. -/
theorem executeScalingAction_none (client : DocDBClient) (cfg : Config)
    (sortSlice : List ReaderInstance → List ReaderInstance) (now : Int)
    (decision : ScalingDecision) (clusterInfo : ClusterInfo) (h : decision.Action = "none") :
    executeScalingAction client cfg sortSlice now decision clusterInfo =
      { calls := [], err := none } := by
  unfold executeScalingAction
  rw [h, if_neg (by decide), if_neg (by decide)]

/-- The response of `handler` once both fetches have succeeded. -/
theorem handler_of_fetched (client : DocDBClient) (cloudwatch : CloudWatchClient)
    (arith : Float64Arith) (cfg : Config)
    (sortSlice : List ReaderInstance → List ReaderInstance) (metricsNow actionNow : Int)
    (event : SchedulerEvent) (clusterInfo : ClusterInfo) (metrics : Metrics)
    (hinfo : getClusterInfo client cfg = .ok clusterInfo)
    (hmetrics : getCurrentMetrics cloudwatch arith cfg metricsNow = .ok metrics) :
    (handler client cloudwatch arith cfg sortSlice metricsNow actionNow event).response =
      match (executeScalingAction client cfg sortSlice actionNow
          (makeScalingDecision cfg clusterInfo metrics) clusterInfo).err with
      | some err => { StatusCode := 500, Body := "Error: " ++ err }
      | none =>
        { StatusCode := 200
          Body := "Scaling decision: " ++ (makeScalingDecision cfg clusterInfo metrics).Action } := by
  unfold handler
  rw [hinfo, hmetrics]
  dsimp only
  by_cases hnone : (makeScalingDecision cfg clusterInfo metrics).Action = "none"
  · rw [if_neg (by simp [hnone]),
      executeScalingAction_none client cfg sortSlice actionNow _ clusterInfo hnone]
  · rw [if_pos hnone]
    split <;> rfl

/-- On answers of the control plane in which every identifier and status is set,
`handler` never returns an error value.  Its response has status 200 and the body
`Scaling decision: <action>` exactly when the topology fetch, the metrics fetch
and the actuator step all succeed; otherwise it has status 500 and the body
`Error: <text>` with the text of the error of the stage that failed. -/
theorem handler_response (client : DocDBClient) (cloudwatch : CloudWatchClient)
    (arith : Float64Arith) (cfg : Config)
    (sortSlice : List ReaderInstance → List ReaderInstance) (metricsNow actionNow : Int)
    (event : SchedulerEvent) :
    (handler client cloudwatch arith cfg sortSlice metricsNow actionNow event).err = none ∧
    ((handler client cloudwatch arith cfg sortSlice metricsNow actionNow event).response.StatusCode
        = 200 ↔
      ∃ clusterInfo metrics, getClusterInfo client cfg = .ok clusterInfo ∧
        getCurrentMetrics cloudwatch arith cfg metricsNow = .ok metrics ∧
        (executeScalingAction client cfg sortSlice actionNow
          (makeScalingDecision cfg clusterInfo metrics) clusterInfo).err = none) ∧
    (∀ clusterInfo metrics, getClusterInfo client cfg = .ok clusterInfo →
      getCurrentMetrics cloudwatch arith cfg metricsNow = .ok metrics →
      (executeScalingAction client cfg sortSlice actionNow
        (makeScalingDecision cfg clusterInfo metrics) clusterInfo).err = none →
      (handler client cloudwatch arith cfg sortSlice metricsNow actionNow event).response =
        { StatusCode := 200
          Body := "Scaling decision: " ++
            (makeScalingDecision cfg clusterInfo metrics).Action }) ∧
    ((handler client cloudwatch arith cfg sortSlice metricsNow actionNow event).response.StatusCode
        ≠ 200 →
      ∃ err,
        (handler client cloudwatch arith cfg sortSlice metricsNow actionNow event).response =
          { StatusCode := 500, Body := "Error: " ++ err } ∧
        (getClusterInfo client cfg = .error err ∨
          (∃ clusterInfo, getClusterInfo client cfg = .ok clusterInfo ∧
            getCurrentMetrics cloudwatch arith cfg metricsNow = .error err) ∨
          ∃ clusterInfo metrics, getClusterInfo client cfg = .ok clusterInfo ∧
            getCurrentMetrics cloudwatch arith cfg metricsNow = .ok metrics ∧
            (executeScalingAction client cfg sortSlice actionNow
              (makeScalingDecision cfg clusterInfo metrics) clusterInfo).err = some err)) := by
  have herr : (handler client cloudwatch arith cfg sortSlice metricsNow actionNow event).err
      = none := by
    unfold handler
    split
    · rfl
    · split
      · rfl
      · dsimp only
        split_ifs
        · split <;> rfl
        · rfl
  refine ⟨herr, ?_⟩
  cases hinfo : getClusterInfo client cfg with
  | error e =>
    have hresp : (handler client cloudwatch arith cfg sortSlice metricsNow actionNow
        event).response = { StatusCode := 500, Body := "Error: " ++ e } := by
      unfold handler; rw [hinfo]
    rw [hresp]
    refine ⟨?_, ?_, ?_⟩
    · simp
    · intro clusterInfo metrics h; cases h
    · intro _; exact ⟨e, rfl, Or.inl rfl⟩
  | ok clusterInfo =>
    cases hmetrics : getCurrentMetrics cloudwatch arith cfg metricsNow with
    | error e =>
      have hresp : (handler client cloudwatch arith cfg sortSlice metricsNow actionNow
          event).response = { StatusCode := 500, Body := "Error: " ++ e } := by
        unfold handler; rw [hinfo, hmetrics]
      rw [hresp]
      refine ⟨?_, ?_, ?_⟩
      · simp
      · intro info metrics _ h; cases h
      · intro _; exact ⟨e, rfl, Or.inr (Or.inl ⟨clusterInfo, rfl, rfl⟩)⟩
    | ok metrics =>
      rw [handler_of_fetched client cloudwatch arith cfg sortSlice metricsNow actionNow event
        clusterInfo metrics hinfo hmetrics]
      cases hact : (executeScalingAction client cfg sortSlice actionNow
          (makeScalingDecision cfg clusterInfo metrics) clusterInfo).err with
      | some e =>
        refine ⟨?_, ?_, ?_⟩
        · simp only [Except.ok.injEq, exists_and_left]
          constructor
          · intro h; simp at h
          · rintro ⟨info, rfl, m, rfl, h⟩
            rw [hact] at h; cases h
        · intro info m hi hm h
          cases hi; cases hm
          rw [hact] at h; cases h
        · intro _
          exact ⟨e, rfl, Or.inr (Or.inr ⟨clusterInfo, metrics, rfl, rfl, hact⟩)⟩
      | none =>
        refine ⟨?_, ?_, ?_⟩
        · simp only [true_iff]
          exact ⟨clusterInfo, metrics, rfl, rfl, hact⟩
        · intro info m hi hm _
          cases hi; cases hm
          rfl
        · intro h; exact absurd rfl h

/-- Witness for C11: with steady metrics (writer CPU 50, reader CPU 40, 100
connections) on the two-reader cluster the decision is `none` and no lifecycle
request is sent. -/
theorem handler_calls_at_most_one_witness :
    (makeScalingDecision (defaultConfig "docdb") twoReaderTopology
        ⟨.fin 50, .fin 40, .fin 100, exampleNow⟩).Action = "none" ∧
      (handler twoReaderClient steadyCloudWatch exampleArith (defaultConfig "docdb")
        insertionSort exampleNow exampleNow exampleEvent).calls = [] :=
  ⟨by decide,
    (handler_calls_at_most_one twoReaderClient steadyCloudWatch exampleArith
      (defaultConfig "docdb") insertionSort exampleNow exampleNow exampleEvent).2.1
      twoReaderTopology ⟨.fin 50, .fin 40, .fin 100, exampleNow⟩ rfl steadyCloudWatch_metrics
      (by decide)⟩

/-- Example for `handler_response`: on the two-reader cluster with writer CPU 20
and the reader-CPU fetch failing, all stages succeed and the response is status
200 with the body `Scaling decision: scale_in`. -/
theorem handler_response_witness :
    (handler twoReaderClient noReaderCloudWatch exampleArith (defaultConfig "docdb")
        insertionSort exampleNow exampleNow exampleEvent).response =
      { StatusCode := 200, Body := "Scaling decision: scale_in" } := by
  rw [(handler_response twoReaderClient noReaderCloudWatch exampleArith
    (defaultConfig "docdb") insertionSort exampleNow exampleNow exampleEvent).2.2.1
    twoReaderTopology ⟨.fin 20, .fin 0, .fin 100, exampleNow⟩ rfl noReaderCloudWatch_metrics
    (by decide)]
  decide

/-! ## Control loop on responses with pointer fields -/

theorem populated_getClusterInfo_step (sdk : Sdk.DocDB) (client : DocDBClient)
    (h : Sdk.Populated sdk client) (info : ClusterInfo) (member : DBClusterMember) :
    Sdk.getClusterInfo.step sdk info member.toSdk =
      some (DbScaling.getClusterInfo.step client info member) := by
  unfold Sdk.getClusterInfo.step DbScaling.getClusterInfo.step
  by_cases hw : member.IsClusterWriter = some true
  · simp [DBClusterMember.toSdk, hw]
  · simp only [DBClusterMember.toSdk, hw, if_false]
    rw [h.2.1]
    cases hd : client.DescribeDBInstances member.DBInstanceIdentifier with
    | error e => rfl
    | ok insts =>
      cases insts with
      | nil => rfl
      | cons inst rest =>
        cases hc : inst.InstanceCreateTime <;>
          simp [Except.map, DBInstance.toSdk, hc]

theorem populated_getClusterInfo_loop (sdk : Sdk.DocDB) (client : DocDBClient)
    (h : Sdk.Populated sdk client) (members : List DBClusterMember) (info : ClusterInfo) :
    Sdk.getClusterInfo.loop sdk info (members.map DBClusterMember.toSdk) =
      some (members.foldl (DbScaling.getClusterInfo.step client) info) := by
  induction members generalizing info with
  | nil => rfl
  | cons member members ih =>
    rw [List.map_cons, Sdk.getClusterInfo.loop,
      populated_getClusterInfo_step sdk client h]
    exact ih _

/-- When every member identifier, instance identifier and instance status in the
answers of the control plane is set, `getClusterInfo` does not panic and returns
what the collector returns on those values. -/
theorem populated_getClusterInfo (sdk : Sdk.DocDB) (client : DocDBClient)
    (h : Sdk.Populated sdk client) (cfg : Config) :
    Sdk.getClusterInfo sdk cfg = some (DbScaling.getClusterInfo client cfg) := by
  unfold Sdk.getClusterInfo DbScaling.getClusterInfo
  rw [h.1]
  cases hd : client.DescribeDBClusters cfg.clusterIdentifier with
  | error e => rfl
  | ok clusters =>
    cases clusters with
    | nil => rfl
    | cons cluster rest =>
      simp only [Except.map, List.map_cons, DBCluster.toSdk]
      rw [populated_getClusterInfo_loop sdk client h]
      rfl

theorem executeScalingAction_lifecycle (sdk : Sdk.DocDB) (client : DocDBClient)
    (h : Sdk.Populated sdk client) (cfg : Config)
    (sortSlice : List ReaderInstance → List ReaderInstance) (now : Int)
    (decision : ScalingDecision) (clusterInfo : ClusterInfo) :
    executeScalingAction sdk.lifecycle cfg sortSlice now decision clusterInfo =
      executeScalingAction client cfg sortSlice now decision clusterInfo := by
  unfold executeScalingAction scaleOut scaleIn Sdk.DocDB.lifecycle
  simp only [h.2.2.1, h.2.2.2]

/-- When every member identifier, instance identifier and instance status in the
answers of the control plane is set, `handler` does not panic and returns what
the control loop returns on those values. -/
theorem populated_handler (sdk : Sdk.DocDB) (client : DocDBClient)
    (h : Sdk.Populated sdk client) (cloudwatch : CloudWatchClient) (arith : Float64Arith)
    (cfg : Config) (sortSlice : List ReaderInstance → List ReaderInstance)
    (metricsNow actionNow : Int) (event : SchedulerEvent) :
    Sdk.handler sdk cloudwatch arith cfg sortSlice metricsNow actionNow event =
      some (DbScaling.handler client cloudwatch arith cfg sortSlice metricsNow actionNow
        event) := by
  unfold Sdk.handler DbScaling.handler
  rw [populated_getClusterInfo sdk client h]
  cases DbScaling.getClusterInfo client cfg with
  | error e => rfl
  | ok clusterInfo =>
    dsimp only
    cases getCurrentMetrics cloudwatch arith cfg metricsNow with
    | error e => rfl
    | ok metrics =>
      dsimp only
      rw [executeScalingAction_lifecycle sdk client h]
      split_ifs
      · cases (executeScalingAction client cfg sortSlice actionNow
          (makeScalingDecision cfg clusterInfo metrics) clusterInfo).err <;> rfl
      · rfl

/-- The run of `handler` panics exactly when the topology collector does. -/
theorem handler_panics_iff (client : Sdk.DocDB) (cloudwatch : CloudWatchClient)
    (arith : Float64Arith) (cfg : Config)
    (sortSlice : List ReaderInstance → List ReaderInstance)
    (metricsNow actionNow : Int) (event : SchedulerEvent) :
    Sdk.handler client cloudwatch arith cfg sortSlice metricsNow actionNow event = none ↔
      Sdk.getClusterInfo client cfg = none := by
  unfold Sdk.handler
  cases Sdk.getClusterInfo client cfg with
  | none => simp
  | some topology =>
    cases topology with
    | error e => simp
    | ok clusterInfo =>
      simp only
      cases getCurrentMetrics cloudwatch arith cfg metricsNow with
      | error e => simp
      | ok metrics =>
        simp only
        split
        · split <;> simp
        · simp

/-- C15 (the code against the claim): a cluster of one writer and one reader whose
described instance has a creation time and no status (`DBInstanceStatus` nil).
`getClusterInfo` dereferences the status without a check, so the run of `handler`
panics and returns no response, neither 200 nor 500.  With the status set on the
same cluster, `handler` returns 200 and `Scaling decision: none`. -/
theorem handler_panics_on_missing_status :
    Sdk.statuslessClient.DescribeDBInstances (some "r1") =
        .ok [{ DBInstanceIdentifier := some "r1", InstanceCreateTime := some (80 * minute)
               DBInstanceStatus := none }] ∧
      Sdk.getClusterInfo Sdk.statuslessClient (defaultConfig "docdb") = none ∧
      Sdk.handler Sdk.statuslessClient steadyCloudWatch exampleArith (defaultConfig "docdb")
        Slice exampleNow exampleNow exampleEvent = none ∧
      Sdk.handler Sdk.availableClient steadyCloudWatch exampleArith (defaultConfig "docdb")
        Slice exampleNow exampleNow exampleEvent =
          some { response := { StatusCode := 200, Body := "Scaling decision: none" }
                 err := none, calls := [] } := by
  refine ⟨rfl, rfl, rfl, ?_⟩
  have hinfo : Sdk.getClusterInfo Sdk.availableClient (defaultConfig "docdb") =
      some (.ok { ReaderCount := 1, WriterCount := 1
                  ReaderInstances :=
                    [{ Identifier := "r1", CreateTime := 80 * minute, Status := "available" }] }) :=
    rfl
  unfold Sdk.handler
  rw [hinfo]
  simp only [steadyCloudWatch_metrics]
  decide

/-! ## Decision engine: no hidden state -/

theorem makeScalingDecision.fromScaleIn_spec (s : EngineState) :
    (makeScalingDecision.fromScaleIn s).1 =
        (if (s.metrics.ReaderCPU.le s.cfg.cpuScaleInThreshold ∧
            s.metrics.WriterCPU.le s.cfg.cpuScaleInThreshold) ∧
            s.clusterInfo.ReaderCount > s.cfg.minReadReplicas then
          { Action := "scale_in"
            Reason := "CPU utilization low on both writer and readers"
            Threshold := s.cfg.cpuScaleInThreshold
            Current := s.metrics.ReaderCPU }
        else
          { Action := "none"
            Reason := "No scaling conditions met"
            Threshold := Float64.zero
            Current := Float64.zero }) ∧
      (makeScalingDecision.fromScaleIn s).2.cfg = s.cfg ∧
      (makeScalingDecision.fromScaleIn s).2.clusterInfo = s.clusterInfo ∧
      (makeScalingDecision.fromScaleIn s).2.metrics = s.metrics := by
  unfold makeScalingDecision.fromScaleIn
  split_ifs <;> first | exact ⟨rfl, rfl, rfl, rfl⟩ | (exfalso; tauto)

theorem makeScalingDecision.fromConnections_spec (s : EngineState) :
    (makeScalingDecision.fromConnections s).1 =
        (if s.metrics.WriterConnections.ge s.cfg.connectionsScaleOutThreshold ∧
            s.clusterInfo.ReaderCount < s.cfg.maxReadReplicas then
          { Action := "scale_out"
            Reason := "Writer connections high"
            Threshold := s.cfg.connectionsScaleOutThreshold
            Current := s.metrics.WriterConnections }
        else (makeScalingDecision.fromScaleIn s).1) ∧
      (makeScalingDecision.fromConnections s).2.cfg = s.cfg ∧
      (makeScalingDecision.fromConnections s).2.clusterInfo = s.clusterInfo ∧
      (makeScalingDecision.fromConnections s).2.metrics = s.metrics := by
  have hlog : ∀ log, (makeScalingDecision.fromScaleIn { s with log := log }).1 =
      (makeScalingDecision.fromScaleIn s).1 := by
    intro log
    rw [(makeScalingDecision.fromScaleIn_spec _).1, (makeScalingDecision.fromScaleIn_spec s).1]
  unfold makeScalingDecision.fromConnections
  split_ifs <;>
    first
    | exact ⟨rfl, rfl, rfl, rfl⟩
    | (exfalso; tauto)
    | exact ⟨hlog _, (makeScalingDecision.fromScaleIn_spec _).2⟩

/-- The statement-by-statement engine returns the decision of `makeScalingDecision`
and leaves the policy, the topology and the metrics as they were. -/
theorem makeScalingDecision.run_spec (s : EngineState) :
    (makeScalingDecision.run s).1 = makeScalingDecision s.cfg s.clusterInfo s.metrics ∧
      (makeScalingDecision.run s).2.cfg = s.cfg ∧
      (makeScalingDecision.run s).2.clusterInfo = s.clusterInfo ∧
      (makeScalingDecision.run s).2.metrics = s.metrics := by
  have hlog : ∀ log, (makeScalingDecision.fromConnections { s with log := log }).1 =
      (makeScalingDecision.fromConnections s).1 := by
    intro log
    rw [(makeScalingDecision.fromConnections_spec _).1,
      (makeScalingDecision.fromConnections_spec s).1,
      (makeScalingDecision.fromScaleIn_spec _).1, (makeScalingDecision.fromScaleIn_spec s).1]
  have hrest : (makeScalingDecision.fromConnections s).1 =
      if s.metrics.WriterConnections.ge s.cfg.connectionsScaleOutThreshold ∧
          s.clusterInfo.ReaderCount < s.cfg.maxReadReplicas then
        { Action := "scale_out"
          Reason := "Writer connections high"
          Threshold := s.cfg.connectionsScaleOutThreshold
          Current := s.metrics.WriterConnections }
      else if (s.metrics.ReaderCPU.le s.cfg.cpuScaleInThreshold ∧
          s.metrics.WriterCPU.le s.cfg.cpuScaleInThreshold) ∧
          s.clusterInfo.ReaderCount > s.cfg.minReadReplicas then
        { Action := "scale_in"
          Reason := "CPU utilization low on both writer and readers"
          Threshold := s.cfg.cpuScaleInThreshold
          Current := s.metrics.ReaderCPU }
      else
        { Action := "none"
          Reason := "No scaling conditions met"
          Threshold := Float64.zero
          Current := Float64.zero } := by
    rw [(makeScalingDecision.fromConnections_spec s).1,
      (makeScalingDecision.fromScaleIn_spec s).1]
  unfold makeScalingDecision.run makeScalingDecision
  split_ifs <;>
    first
    | exact ⟨rfl, rfl, rfl, rfl⟩
    | (exfalso; tauto)
    | exact ⟨by rw [hlog, hrest]; simp [*],
        (makeScalingDecision.fromConnections_spec _).2⟩

/-- C16: the decision engine is deterministic and has no hidden state.  Run twice
in a row on the same topology, metrics and policy it returns the same decision
(action, reason, threshold and triggering metric); the decision does not depend
on the only state the engine changes, the log; and a run leaves the policy, the
topology and the metrics unchanged. -/
theorem makeScalingDecision_deterministic (s : EngineState) (log : List String) :
    (makeScalingDecision.run (makeScalingDecision.run s).2).1 = (makeScalingDecision.run s).1 ∧
      (makeScalingDecision.run { s with log := log }).1 = (makeScalingDecision.run s).1 ∧
      (makeScalingDecision.run s).1 = makeScalingDecision s.cfg s.clusterInfo s.metrics ∧
      (makeScalingDecision.run s).2.cfg = s.cfg ∧
      (makeScalingDecision.run s).2.clusterInfo = s.clusterInfo ∧
      (makeScalingDecision.run s).2.metrics = s.metrics := by
  obtain ⟨h1, h2, h3, h4⟩ := makeScalingDecision.run_spec s
  refine ⟨?_, ?_, h1, h2, h3, h4⟩
  · rw [(makeScalingDecision.run_spec _).1, h1, h2, h3, h4]
  · rw [(makeScalingDecision.run_spec _).1, h1]

/-! ## Topology collector: counts -/

/-- Writers and described readers are distinct members: together they are at
most as many as the members. -/
theorem describedReader_count_le (client : DocDBClient) (members : List DBClusterMember) :
    (members.filter fun m => decide (m.IsClusterWriter = some true)).length +
        (members.filterMap (describedReader client)).length ≤ members.length := by
  induction members with
  | nil => simp
  | cons m ms ih =>
    by_cases hw : m.IsClusterWriter = some true
    · have hd : describedReader client m = none := by simp [describedReader, hw]
      rw [List.filter_cons, if_pos (by simpa using hw), List.filterMap_cons, hd]
      simp only [List.length_cons]
      omega
    · rw [List.filter_cons, if_neg (by simpa using hw), List.filterMap_cons]
      cases describedReader client m with
      | none => simp only [List.length_cons]; omega
      | some r => simp only [List.length_cons]; omega

/-- C21: every topology `getClusterInfo` returns has `ReaderCount =
len(ReaderInstances)` and `WriterCount + ReaderCount` at most the number of
members of the cluster, whatever the membership and the outcomes of the
per-instance lookups are; hence, when the engine decides `scale_in` on that
topology (`ReaderCount > minReplicas`), the floor check of `scaleIn`
(`len(ReaderInstances) <= minReplicas`) does not fire. -/
theorem getClusterInfo_counts (client : DocDBClient) (cfg : Config) (clusterInfo : ClusterInfo)
    (hinfo : getClusterInfo client cfg = .ok clusterInfo) :
    clusterInfo.ReaderCount = (clusterInfo.ReaderInstances.length : Int) ∧
    (∃ cluster rest, client.DescribeDBClusters cfg.clusterIdentifier = .ok (cluster :: rest) ∧
      clusterInfo.WriterCount + clusterInfo.ReaderCount ≤
        (cluster.DBClusterMembers.length : Int)) ∧
    (∀ metrics, (makeScalingDecision cfg clusterInfo metrics).Action = "scale_in" →
      ¬ ((clusterInfo.ReaderInstances.length : Int) ≤ cfg.minReadReplicas)) := by
  have hcount := getClusterInfo_readerCount_eq_length client cfg clusterInfo hinfo
  refine ⟨hcount, ?_, ?_⟩
  · unfold getClusterInfo at hinfo
    split at hinfo
    · cases hinfo
    · cases hinfo
    · rename_i cluster rest hcluster
      injection hinfo with hinfo
      subst hinfo
      refine ⟨cluster, rest, hcluster, ?_⟩
      rw [getClusterInfo.foldl_eq]
      have h := describedReader_count_le client cluster.DBClusterMembers
      simp only [zero_add]
      exact_mod_cast h
  · intro metrics hdec
    rw [← hcount]
    exact not_le.mpr (readerCount_gt_min_of_scaleIn cfg clusterInfo metrics hdec)

/-- Witness for C21: the cluster of one writer and two readers gives
`ReaderCount = 2 = len(ReaderInstances)` and `1 + 2 <= 3`; at writer CPU 20 and
reader CPU 10 the engine decides `scale_in` and the floor check (`2 <= 1`) does
not fire. -/
theorem getClusterInfo_counts_witness :
    getClusterInfo twoReaderClient (defaultConfig "docdb") = .ok twoReaderTopology ∧
      twoReaderTopology.ReaderCount = (twoReaderTopology.ReaderInstances.length : Int) ∧
      (makeScalingDecision (defaultConfig "docdb") twoReaderTopology
        ⟨.fin 20, .fin 10, .fin 0, 0⟩).Action = "scale_in" ∧
      ¬ ((twoReaderTopology.ReaderInstances.length : Int) ≤
        (defaultConfig "docdb").minReadReplicas) :=
  ⟨rfl,
    (getClusterInfo_counts twoReaderClient (defaultConfig "docdb") twoReaderTopology rfl).1,
    by decide,
    (getClusterInfo_counts twoReaderClient (defaultConfig "docdb") twoReaderTopology rfl).2.2
      ⟨.fin 20, .fin 10, .fin 0, 0⟩ (by decide)⟩

end DbScaling

/-! # Configuration package: properties -/

namespace EnvConfig

/-- `os.Getenv` returns the empty string exactly for a variable that is unset
or set to the empty string. -/
theorem getenv_eq_empty_iff (environ : String → Option String) (key : String) :
    Os.Getenv environ key = "" ↔ environ key = none ∨ environ key = some "" := by
  unfold Os.Getenv
  cases environ key <;> simp

/-- The value `os.Getenv` returns for a variable that is set. -/
theorem getenv_of_some (environ : String → Option String) (key value : String)
    (h : environ key = some value) : Os.Getenv environ key = value := by
  unfold Os.Getenv
  rw [h]
  rfl

/-- C17: `GetEnvInt` returns the parsed integer when the variable is set to a
non-empty string that `strconv.Atoi` accepts, and the default value when the
variable is unset, empty, or rejected by `strconv.Atoi`; the autoscaler's
`getEnvInt` is the same function. -/
theorem GetEnvInt_spec (environ : String → Option String) (key : String) (defaultValue : Int) :
    (∀ value intValue, environ key = some value → value ≠ "" →
      Strconv.Atoi value = .ok intValue → GetEnvInt environ key defaultValue = intValue) ∧
    (environ key = none ∨ environ key = some "" →
      GetEnvInt environ key defaultValue = defaultValue) ∧
    (∀ value err, environ key = some value → Strconv.Atoi value = .error err →
      GetEnvInt environ key defaultValue = defaultValue) ∧
    DbScaling.getEnvInt environ key defaultValue = GetEnvInt environ key defaultValue := by
  refine ⟨?_, ?_, ?_, rfl⟩
  · intro value intValue hset hne hparse
    unfold GetEnvInt
    simp only [getenv_of_some environ key value hset, hparse]
    rw [if_pos hne]
  · intro h
    unfold GetEnvInt
    simp only [(getenv_eq_empty_iff environ key).mpr h]
    rfl
  · intro value err hset hparse
    unfold GetEnvInt
    simp only [getenv_of_some environ key value hset, hparse]
    split_ifs <;> rfl

/-- Witness for C17: the cases of `TestGetEnvInt`: unset gives the default 42,
`123` gives 123, `invalid` gives 42; and the empty string gives 42. -/
theorem GetEnvInt_spec_witness :
    GetEnvInt Os.Clearenv "TEST_INT" 42 = 42 ∧
      GetEnvInt (Os.Setenv Os.Clearenv "TEST_INT" "123") "TEST_INT" 42 = 123 ∧
      GetEnvInt (Os.Setenv Os.Clearenv "TEST_INT" "invalid") "TEST_INT" 42 = 42 ∧
      GetEnvInt (Os.Setenv Os.Clearenv "TEST_INT" "") "TEST_INT" 42 = 42 :=
  ⟨(GetEnvInt_spec Os.Clearenv "TEST_INT" 42).2.1 (Or.inl rfl),
    (GetEnvInt_spec (Os.Setenv Os.Clearenv "TEST_INT" "123") "TEST_INT" 42).1 "123" 123
      (by decide) (by decide) rfl,
    (GetEnvInt_spec (Os.Setenv Os.Clearenv "TEST_INT" "invalid") "TEST_INT" 42).2.2.1
      "invalid" "invalid syntax" (by decide) rfl,
    (GetEnvInt_spec (Os.Setenv Os.Clearenv "TEST_INT" "") "TEST_INT" 42).2.1
      (Or.inr (by decide))⟩

/-- C18: the configuration loaders fail exactly when a required variable is
missing.  `LoadGeneratorConfigFromEnv` returns an error iff
`MONGODB_CONNECTION_STRING` is unset or empty; `MetricsCheckerConfigFromEnv`
returns an error iff `CLUSTER_IDENTIFIER` or `ENVIRONMENT` is unset or empty; on
success the returned configuration carries the variables' values unchanged. -/
theorem config_loaders_fail_iff_missing (environ : String → Option String) :
    ((∃ err, LoadGeneratorConfigFromEnv environ = .error err) ↔
      (environ "MONGODB_CONNECTION_STRING" = none ∨
        environ "MONGODB_CONNECTION_STRING" = some "")) ∧
    (∀ config, LoadGeneratorConfigFromEnv environ = .ok config →
      environ "MONGODB_CONNECTION_STRING" = some config.MongoConnectionString) ∧
    ((∃ err, MetricsCheckerConfigFromEnv environ = .error err) ↔
      ((environ "CLUSTER_IDENTIFIER" = none ∨ environ "CLUSTER_IDENTIFIER" = some "") ∨
        (environ "ENVIRONMENT" = none ∨ environ "ENVIRONMENT" = some ""))) ∧
    (∀ config, MetricsCheckerConfigFromEnv environ = .ok config →
      environ "CLUSTER_IDENTIFIER" = some config.ClusterIdentifier ∧
        environ "ENVIRONMENT" = some config.Environment) := by
  have hval : ∀ key value, Os.Getenv environ key = value → value ≠ "" →
      environ key = some value := by
    intro key value h hne
    unfold Os.Getenv at h
    cases hk : environ key with
    | none => rw [hk] at h; exact absurd h.symm hne
    | some v => rw [hk] at h; exact congrArg some h
  refine ⟨?_, ?_, ?_, ?_⟩
  · rw [← getenv_eq_empty_iff]
    unfold LoadGeneratorConfigFromEnv
    dsimp only
    split_ifs with h <;> simp [h]
  · intro config h
    unfold LoadGeneratorConfigFromEnv at h
    dsimp only at h
    split_ifs at h with hne
    injection h with h
    subst h
    exact hval _ _ rfl hne
  · rw [← getenv_eq_empty_iff, ← getenv_eq_empty_iff]
    unfold MetricsCheckerConfigFromEnv
    dsimp only
    split_ifs with h1 h2
    · simp [h1]
    · simp [h2]
    · simp [h1, h2]
  · intro config h
    unfold MetricsCheckerConfigFromEnv at h
    dsimp only at h
    split_ifs at h with h1 h2
    injection h with h
    subst h
    exact ⟨hval _ _ rfl h1, hval _ _ rfl h2⟩

/-- Witness for C18: the cases of `TestLoadGeneratorConfigFromEnv` and
`TestMetricsCheckerConfigFromEnv`. -/
theorem config_loaders_fail_iff_missing_witness :
    (∃ err, LoadGeneratorConfigFromEnv Os.Clearenv = .error err) ∧
      (∃ err, MetricsCheckerConfigFromEnv Os.Clearenv = .error err) ∧
      LoadGeneratorConfigFromEnv
          (Os.Setenv Os.Clearenv "MONGODB_CONNECTION_STRING" "mongodb://test-cluster:27017") =
        .ok { MongoConnectionString := "mongodb://test-cluster:27017" } ∧
      MetricsCheckerConfigFromEnv
          (Os.Setenv (Os.Setenv Os.Clearenv "CLUSTER_IDENTIFIER" "test-cluster")
            "ENVIRONMENT" "test") =
        .ok { ClusterIdentifier := "test-cluster", Environment := "test" } :=
  ⟨(config_loaders_fail_iff_missing Os.Clearenv).1.mpr (Or.inl rfl),
    (config_loaders_fail_iff_missing Os.Clearenv).2.2.1.mpr (Or.inl (Or.inl rfl)),
    rfl, rfl⟩

/-- C19: `GetEnvString` returns the variable's value when it is set and
non-empty, and the default value otherwise. -/
theorem GetEnvString_spec (environ : String → Option String) (key defaultValue : String) :
    (∀ value, environ key = some value → value ≠ "" →
      GetEnvString environ key defaultValue = value) ∧
    (environ key = none ∨ environ key = some "" →
      GetEnvString environ key defaultValue = defaultValue) := by
  constructor
  · intro value hset hne
    unfold GetEnvString
    simp only [getenv_of_some environ key value hset]
    rw [if_pos hne]
  · intro h
    unfold GetEnvString
    simp only [(getenv_eq_empty_iff environ key).mpr h]
    rfl

/-- Witness for C19: the cases of `TestGetEnvString`: unset gives `default`,
set to `custom` gives `custom`. -/
theorem GetEnvString_spec_witness :
    GetEnvString Os.Clearenv "TEST_STRING" "default" = "default" ∧
      GetEnvString (Os.Setenv Os.Clearenv "TEST_STRING" "custom") "TEST_STRING" "default" =
        "custom" :=
  ⟨(GetEnvString_spec Os.Clearenv "TEST_STRING" "default").2 (Or.inl rfl),
    (GetEnvString_spec (Os.Setenv Os.Clearenv "TEST_STRING" "custom") "TEST_STRING"
      "default").1 "custom" (by decide) (by decide)⟩

end EnvConfig

/-! # Load generator: properties -/

namespace LoadGenerator

/-- No worker result carries an error text. -/
theorem handler.results_no_error (world : World) (request : LoadGeneratorRequest) :
    (handler.results world request).any (fun threadResult =>
      decide (threadResult.Error ≠ "")) = false := by
  unfold handler.results
  rw [List.any_eq_false]
  intro r hr
  obtain ⟨i, _, rfl⟩ := List.mem_map.mp hr
  simp [generateLoad]

/-- C20 (the code against the claim): the load generator never answers with status
206.  On every run its status is 200 or 500, and it is 200 with the message
`Load generation completed` on the run in which every write and every read of
every worker fails (request: 1 minute, 2 threads, `mixed`). -/
theorem handler_never_206 (world : World) (request : LoadGeneratorRequest) :
    ((handler world request).StatusCode = 200 ∨ (handler world request).StatusCode = 500) ∧
      (handler world request).StatusCode ≠ 206 ∧
      handler failingWorld ⟨1, 2, "mixed"⟩ =
        { StatusCode := 200, Body := "Load generation completed" } := by
  have h : (handler world request).StatusCode = 200 ∨
      (handler world request).StatusCode = 500 := by
    unfold handler
    split
    · exact Or.inr rfl
    · split
      · exact Or.inr rfl
      · split
        · exact Or.inr rfl
        · simp only [handler.results_no_error]
          split
          · exact Or.inr rfl
          · exact Or.inl rfl
  refine ⟨h, ?_, by decide⟩
  rcases h with h | h <;> rw [h] <;> decide

end LoadGenerator
